import Mathlib

/-!
## Verification of the BrithAiGame3D simulation core

Shallow embedding of the game engine in `src/game.ts` (class `GameEngine`).
Numbers are modelled as rationals (`ℚ`); the TypeScript floats `Math.sqrt`,
`Math.cos`, `Math.sin` and `Math.atan2` are irrational-valued, so they are
passed in as an explicit `MathModel` parameter and all theorems quantify over
it.  `Math.random()` (the spec's documented non-seeded randomness) is modelled
as an ambient stream of rationals consumed from the engine state, and
`Date.now()` as an explicit argument.  Mutation of the current room through the
`this.currentRoom` alias into `this.dungeon` is modelled by storing an index
into the dungeon list.  A call that would dereference a `null` current room
(the non-null assertion `this.currentRoom!`) is modelled by returning `none`.

The modules `types.ts`, `constants.ts`, `utils.ts`, `dungeon.ts` and the
`config/` tables are imported by `game.ts` but are not part of the sources
under verification; each definition taken from them is marked
`Modelled from the spec:` in its doc comment and follows the spec's wording.
-/

namespace BG

/-- A 2D vector of rationals (`Vector2` in `types.ts`). -/
structure Vector2 where
  x : ℚ
  y : ℚ
deriving DecidableEq

/-- Axis-aligned box (position is the top-left anchor, as in the source). -/
structure Box where
  x : ℚ
  y : ℚ
  w : ℚ
  h : ℚ
deriving DecidableEq

/-- The real-valued math functions used by the engine (`Math.sqrt`,
`Math.cos`, `Math.sin`, `Math.atan2`).  They are irrational-valued floats in
the source, so the embedding abstracts them; theorems hold for every model. -/
structure MathModel where
  sqrtA : ℚ → ℚ
  cosA : ℚ → ℚ
  sinA : ℚ → ℚ
  atan2A : ℚ → ℚ → ℚ

/-- Run status (`GameStatus` in `types.ts`; the five states named by the spec). -/
inductive GameStatus where
  | MENU
  | CHARACTER_SELECT
  | PLAYING
  | PAUSED
  | GAME_OVER
deriving DecidableEq

/-- Entity type tags (`EntityType` in `types.ts`). -/
inductive EntityType where
  | PLAYER
  | ENEMY
  | PROJECTILE
  | ITEM
  | PEDESTAL
  | TRAPDOOR
  | OBSTACLE
deriving DecidableEq

/-- Enemy behavior tags (`EnemyType` in `types.ts`). -/
inductive EnemyType where
  | CHASER
  | TANK
  | ORBITER
  | SHOOTER
  | DASHER
  | BOSS
deriving DecidableEq

/-- Modelled from the spec: item-type identifiers (`ItemType` in the missing
`types.ts`).  `HEART_PICKUP` is the pure health-restore pickup singled out by
`collectItem`; reward items carry opaque numeric ids. -/
inductive ItemType where
  | HEART_PICKUP
  | other (n : ℕ)
deriving DecidableEq

/-- Cardinal directions (`Direction` in `types.ts`). -/
inductive Direction where
  | UP
  | DOWN
  | LEFT
  | RIGHT
deriving DecidableEq

/-- Room type tags (the string union `'START' | 'NORMAL' | 'ITEM' | 'BOSS'`). -/
inductive RoomType where
  | START
  | NORMAL
  | ITEM
  | BOSS
deriving DecidableEq

/-- Enemy AI state tags (the string union `'IDLE' | 'ATTACK'`). -/
inductive AiState where
  | IDLE
  | ATTACK
deriving DecidableEq

/-- Player stats record (`Stats` in `types.ts`, as used by `game.ts`). -/
structure Stats where
  hp : ℚ
  maxHp : ℚ
  speed : ℚ
  damage : ℚ
  fireRate : ℚ
  shotSpeed : ℚ
  range : ℚ
  knockback : ℚ
  bulletScale : ℚ
  shotSpread : ℚ
deriving DecidableEq

/-- The stats subset carried by enemies. -/
structure EnemyStats where
  speed : ℚ
  damage : ℚ
  fireRate : ℚ
  shotSpeed : ℚ
  range : ℚ
deriving DecidableEq

/-- Per-variant payload of the tagged entity union in `types.ts`. -/
inductive EntityData where
  | enemy (enemyType : EnemyType) (hp : ℚ) (maxHp : ℚ) (aiState : AiState)
      (timer : ℤ) (orbitAngle : ℚ) (flying : Bool) (stats : EnemyStats)
  | projectile (ownerId : String) (damage : ℚ) (knockback : ℚ) (lifeTime : ℚ)
  | item (itemType : ItemType) (name : String) (descr : String)
      (choiceGroupId : Option String)
  | pedestal
  | trapdoor
  | obstacle
deriving DecidableEq

/-- A live (non-player) entity: the common envelope plus the variant payload.
Optional numeric fields (`flashTimer`, `visualZ`) default to `0`, matching the
falsy-`undefined` checks in the source. -/
structure Entity where
  id : String
  x : ℚ
  y : ℚ
  w : ℚ
  h : ℚ
  velocity : Vector2
  knockbackVelocity : Vector2
  color : String
  markedForDeletion : Bool
  flashTimer : ℚ
  visualZ : ℚ
  data : EntityData
deriving DecidableEq

/-- The entity-type tag of an entity's payload. -/
def Entity.etype (e : Entity) : EntityType :=
  match e.data with
  | .enemy _ _ _ _ _ _ _ _ => EntityType.ENEMY
  | .projectile _ _ _ _ => EntityType.PROJECTILE
  | .item _ _ _ _ => EntityType.ITEM
  | .pedestal => EntityType.PEDESTAL
  | .trapdoor => EntityType.TRAPDOOR
  | .obstacle => EntityType.OBSTACLE

/-- The player entity (`PlayerEntity` in `types.ts`; its id is `"player"`). -/
structure PlayerEntity where
  x : ℚ
  y : ℚ
  w : ℚ
  h : ℚ
  velocity : Vector2
  knockbackVelocity : Vector2
  color : String
  markedForDeletion : Bool
  stats : Stats
  cooldown : ℚ
  invincibleTimer : ℚ
  flashTimer : ℚ
  inventory : List ItemType
  visualZ : ℚ
deriving DecidableEq

/-- Door-adjacency flags per cardinal direction. -/
structure DoorFlags where
  UP : Bool
  DOWN : Bool
  LEFT : Bool
  RIGHT : Bool
deriving DecidableEq

/-- A room of the floor graph (`Room` in `types.ts`, fields as used by
`game.ts`).  `savedEntities = []` models the `undefined` snapshot, which the
source only ever tests through `savedEntities && savedEntities.length > 0`. -/
structure Room where
  x : ℤ
  y : ℤ
  rtype : RoomType
  layout : List (List ℕ)
  doors : DoorFlags
  cleared : Bool
  visited : Bool
  itemCollected : Bool
  seed : ℚ
  savedEntities : List Entity
deriving DecidableEq

/-- The whole mutable state of `GameEngine`.  `currentRoomIdx` is an index
into `dungeon`, modelling the `this.currentRoom` object alias; `rand` is the
ambient `Math.random()` stream; `nextId` feeds the `uuid()` generator. -/
structure GameState where
  status : GameStatus
  floorLevel : ℤ
  baseSeed : ℚ
  score : ℚ
  player : PlayerEntity
  entities : List Entity
  currentRoomIdx : Option ℕ
  dungeon : List Room
  notification : Option String
  notificationTimer : ℤ
  restartTimer : ℤ
  pauseLocked : Bool
  characterId : String
  nextId : ℕ
  rand : List ℚ
deriving DecidableEq

/-- Engine constants.  `TILE_SIZE` and the canvas dimensions follow the
renderer's documented logical space (15 x 9 tiles of 48 px, i.e. 0..720 by
0..432); the remaining sizes are modelled from the spec, since `constants.ts`
is not among the sources (no claim depends on their exact values). -/
def TILE_SIZE : ℚ := 48

/-- Logical canvas width in pixels (15 tiles of 48 px). -/
def CANVAS_WIDTH : ℚ := 720

/-- Logical canvas height in pixels (9 tiles of 48 px). -/
def CANVAS_HEIGHT : ℚ := 432

/-- Modelled from the spec: player bounding-box size from `constants.ts`. -/
def PLAYER_SIZE : ℚ := 32

/-- Modelled from the spec: item bounding-box size from `constants.ts`. -/
def ITEM_SIZE : ℚ := 32

/-- Modelled from the spec: base projectile size from `constants.ts`. -/
def PROJECTILE_SIZE : ℚ := 10

/-- The IEEE-754 double value of `Math.PI`, as an exact rational. -/
def mathPI : ℚ := 884279719003555 / 281474976710656

/-- Modelled from the spec: axis-aligned bounding-box overlap test
(`checkAABB` in the missing `utils.ts`; the spec's AABB primitive). -/
def checkAABB (a b : Box) : Bool :=
  decide (a.x < b.x + b.w) && decide (a.x + a.w > b.x) &&
  decide (a.y < b.y + b.h) && decide (a.y + a.h > b.y)

/-- Modelled from the spec: Euclidean distance between two points
(`distance` in the missing `utils.ts`), through the abstract square root. -/
def distanceM (M : MathModel) (a b : Vector2) : ℚ :=
  M.sqrtA ((a.x - b.x) ^ 2 + (a.y - b.y) ^ 2)

/-- Modelled from the spec: vector normalization (`normalizeVector` in the
missing `utils.ts`), through the abstract square root; the zero vector maps
to itself. -/
def normalizeVector (M : MathModel) (v : Vector2) : Vector2 :=
  let len := M.sqrtA (v.x ^ 2 + v.y ^ 2)
  if len = 0 then ⟨0, 0⟩ else ⟨v.x / len, v.y / len⟩

/-- The bounding box of an entity. -/
def Entity.box (e : Entity) : Box := ⟨e.x, e.y, e.w, e.h⟩

/-- The bounding box of the player. -/
def PlayerEntity.box (p : PlayerEntity) : Box := ⟨p.x, p.y, p.w, p.h⟩

/-- The tile value at row `r`, column `c` of a layout (rows are lists). -/
def tileAt (layout : List (List ℕ)) (r c : ℕ) : ℕ :=
  (layout.getD r []).getD c 0

/-- The room object currently aliased by `this.currentRoom`. -/
def currentRoomOf (s : GameState) : Option Room :=
  s.currentRoomIdx.bind (fun i => s.dungeon.get? i)

/-- Applies a mutation to the room aliased by `this.currentRoom` (a no-op
when no room is active, matching the source's `if (this.currentRoom)` guards
at the call sites that have them). -/
def updateCurrentRoom (s : GameState) (f : Room → Room) : GameState :=
  match s.currentRoomIdx with
  | none => s
  | some i =>
    match s.dungeon.get? i with
    | none => s
    | some r => { s with dungeon := s.dungeon.set i (f r) }

/-- Pops the next `Math.random()` draw from the ambient stream. -/
def takeRand (s : GameState) : ℚ × GameState :=
  match s.rand with
  | [] => (0, s)
  | r :: rest => (r, { s with rand := rest })

/-- Modelled from the spec: fresh unique entity ids (`uuid` in the missing
`utils.ts`), drawn from a counter in the state. -/
def freshId (s : GameState) : String × GameState :=
  ("e" ++ toString s.nextId, { s with nextId := s.nextId + 1 })

/-!  ## Damage application (`GameEngine.damagePlayer`, lines 756-768) -/

/-- The `GameEngine.damagePlayer`: ignored entirely inside the invincibility
window; otherwise reduces hp, opens the full 60-tick invincibility window,
sets the 10-tick flash, adds the knockback impulse, and transitions to
`GAME_OVER` exactly when the new hp is at or below zero. -/
def damagePlayer (amount knockbackForce : ℚ) (knockbackDir : Vector2)
    (s : GameState) : GameState :=
  if s.player.invincibleTimer > 0 then s
  else
    let p := s.player
    let hp2 := p.stats.hp - amount
    let p2 : PlayerEntity :=
      { p with
        stats := { p.stats with hp := hp2 }
        invincibleTimer := 60
        flashTimer := 10
        knockbackVelocity :=
          ⟨p.knockbackVelocity.x + knockbackDir.x * knockbackForce,
           p.knockbackVelocity.y + knockbackDir.y * knockbackForce⟩ }
    { s with
      player := p2
      status := if hp2 ≤ 0 then GameStatus.GAME_OVER else s.status }

/-- The per-tick decrement of the player's invincibility and flash counters
(`update`, lines 512-513). -/
def tickPlayerTimers (p : PlayerEntity) : PlayerEntity :=
  let p1 := if p.invincibleTimer > 0 then
      { p with invincibleTimer := p.invincibleTimer - 1 } else p
  if p1.flashTimer ≠ 0 ∧ p1.flashTimer > 0 then
    { p1 with flashTimer := p1.flashTimer - 1 } else p1

/-!  ## Seeded RNG and configuration tables

The `SeededRNG` class and the configuration tables live in `utils.ts` and
`config/`, which are not among the sources; they are modelled from the spec.
No claim depends on the particular values these produce. -/

/-- Modelled from the spec: the deterministic seeded RNG of `utils.ts`,
"fully determined by its seed, no hidden global state".  Modelled as a
31-bit linear congruential generator. -/
structure SRNG where
  state : ℤ
deriving DecidableEq

/-- Modelled from the spec: constructs the RNG from a (possibly fractional)
numeric seed. -/
def SRNG.mk0 (seed : ℚ) : SRNG := ⟨⌊seed⌋ % 2147483647⟩

/-- Modelled from the spec: `next() -> [0,1)`. -/
def SRNG.next (r : SRNG) : ℚ × SRNG :=
  let st := (r.state * 16807 + 12345) % 2147483647
  ((st : ℚ) / 2147483647, ⟨st⟩)

/-- Modelled from the spec: `range(lo,hi) -> float`. -/
def SRNG.range (r : SRNG) (lo hi : ℚ) : ℚ × SRNG :=
  let (n, r2) := r.next
  (lo + n * (hi - lo), r2)

/-- Walks a weighted list looking for the prefix whose cumulative weight
exceeds the target; falls back to the last element. -/
def pickWeighted {α : Type} (wt : α → ℚ) : List α → ℚ → Option α
  | [], _ => none
  | [a], _ => some a
  | a :: rest, target =>
    if target < wt a then some a else pickWeighted wt rest (target - wt a)

/-- Modelled from the spec: `weightedChoice(list) -> element or none if the
list is empty`, driven by one `next()` draw. -/
def SRNG.weightedChoice {α : Type} (r : SRNG) (wt : α → ℚ) (xs : List α) :
    Option α × SRNG :=
  match xs with
  | [] => (none, r)
  | _ =>
    let total := (xs.map wt).sum
    let (n, r2) := r.next
    (pickWeighted wt xs (n * total), r2)

/-- Per-stat item modifiers (`Partial<Stats>` of the item configs).  A field
value of `0` models an absent (or zero, equally falsy) modifier, matching the
source's `if (mods.field)` truthiness guards. -/
structure ItemMods where
  hp : ℚ := 0
  maxHp : ℚ := 0
  damage : ℚ := 0
  speed : ℚ := 0
  fireRate : ℚ := 0
  shotSpeed : ℚ := 0
  range : ℚ := 0
  bulletScale : ℚ := 0
  knockback : ℚ := 0
  shotSpread : ℚ := 0
deriving DecidableEq

/-- Modelled from the spec: one entry of the reward-item table
(`config/items.ts`). -/
structure ItemConfig where
  itype : ItemType
  nameKey : String
  descKey : String
  color : String
  weight : ℚ
  stats : ItemMods
deriving DecidableEq

/-- Modelled from the spec: the reward-item table `ITEMS` (representative
entries; the real table is not among the sources, and no claim depends on
its contents — the stat-application claims quantify over arbitrary
configurations). -/
def ITEMS : List ItemConfig :=
  [ { itype := ItemType.other 1, nameKey := "ITEM_HEART_UP",
      descKey := "ITEM_HEART_UP_DESC", color := "#f00", weight := 10,
      stats := { maxHp := 1, hp := 1 } },
    { itype := ItemType.other 2, nameKey := "ITEM_RAPID",
      descKey := "ITEM_RAPID_DESC", color := "#ff0", weight := 10,
      stats := { fireRate := 7/10 } },
    { itype := ItemType.other 3, nameKey := "ITEM_POWER",
      descKey := "ITEM_POWER_DESC", color := "#0ff", weight := 10,
      stats := { damage := 3/2 } } ]

/-- Modelled from the spec: the drop table `DROPS` (`config/items.ts`); its
first entry is the heart pickup used by `spawnPickup`, a pure health restore. -/
def DROPS : List ItemConfig :=
  [ { itype := ItemType.HEART_PICKUP, nameKey := "PICKUP_HEART",
      descKey := "PICKUP_HEART_DESC", color := "#f00", weight := 1,
      stats := { hp := 1 } } ]

/-- Modelled from the spec: one entry of the enemy configuration tables
(`config/enemies.ts`). -/
structure EnemyConfig where
  etype : EnemyType
  name : String
  color : String
  size : ℚ
  speed : ℚ
  damage : ℚ
  fireRate : ℚ
  shotSpeed : ℚ
  range : ℚ
  hpBase : ℚ
  hpPerLevel : ℚ
  minFloor : ℤ
  flying : Bool
  weight : ℚ
  scoreValue : ℚ
deriving DecidableEq

/-- Modelled from the spec: the normal-enemy table `ENEMIES` (representative
entries covering the behavior tags; no claim depends on the values). -/
def ENEMIES : List EnemyConfig :=
  [ { etype := EnemyType.CHASER, name := "Chaser", color := "#a00",
      size := 28, speed := 2, damage := 1, fireRate := 0, shotSpeed := 0,
      range := 0, hpBase := 6, hpPerLevel := 2, minFloor := 1,
      flying := false, weight := 10, scoreValue := 10 },
    { etype := EnemyType.SHOOTER, name := "Shooter", color := "#0a0",
      size := 26, speed := 0, damage := 1, fireRate := 60, shotSpeed := 4,
      range := 300, hpBase := 5, hpPerLevel := 2, minFloor := 1,
      flying := true, weight := 8, scoreValue := 15 },
    { etype := EnemyType.TANK, name := "Tank", color := "#888",
      size := 40, speed := 1, damage := 1, fireRate := 0, shotSpeed := 0,
      range := 0, hpBase := 14, hpPerLevel := 4, minFloor := 2,
      flying := false, weight := 6, scoreValue := 20 } ]

/-- Modelled from the spec: the boss table `BOSSES` (its first entry is the
boss spawned by `spawnBoss`). -/
def BOSSES : List EnemyConfig :=
  [ { etype := EnemyType.BOSS, name := "Overseer", color := "#707",
      size := 72, speed := 3/2, damage := 1, fireRate := 45, shotSpeed := 5,
      range := 600, hpBase := 80, hpPerLevel := 25, minFloor := 1,
      flying := true, weight := 1, scoreValue := 200 } ]

/-- Modelled from the spec: one entry of the character template table
(`config/characters.ts`). -/
structure CharacterConfig where
  cid : String
  color : String
  baseStats : Stats
deriving DecidableEq

/-- Modelled from the spec: the character table `CHARACTERS`; its first
entry is the default character `alpha`. -/
def CHARACTERS : List CharacterConfig :=
  [ { cid := "alpha", color := "#4af",
      baseStats :=
        { hp := 6, maxHp := 6, speed := 3, damage := 7/2, fireRate := 10,
          shotSpeed := 7, range := 300, knockback := 5, bulletScale := 1,
          shotSpread := 1 } } ]

/-!  ## Dungeon module (external collaborator, modelled from the spec) -/

/-- Sets one tile of a layout. -/
def setTile (layout : List (List ℕ)) (r c : ℕ) (v : ℕ) : List (List ℕ) :=
  layout.set r ((layout.getD r []).set c v)

/-- Sets a list of tiles of a layout. -/
def setTiles (layout : List (List ℕ)) (ps : List (ℕ × ℕ)) (v : ℕ) :
    List (List ℕ) :=
  ps.foldl (fun l p => setTile l p.1 p.2 v) layout

/-- Modelled from the spec: `carveDoors(layout, doorFlags)` of the missing
`dungeon.ts` — "mutates a room's tile layout in place to open the flagged
cardinal directions — idempotent, side-effect confined to the layout
argument".  Door tiles sit at the middle of each edge of the 15 x 9 grid and
are opened to the passable door value `3`. -/
def carveDoors (layout : List (List ℕ)) (doors : DoorFlags) :
    List (List ℕ) :=
  let l1 := if doors.UP then setTiles layout [(0,6),(0,7),(0,8)] 3 else layout
  let l2 := if doors.DOWN then setTiles l1 [(8,6),(8,7),(8,8)] 3 else l1
  let l3 := if doors.LEFT then setTiles l2 [(3,0),(4,0),(5,0)] 3 else l2
  if doors.RIGHT then setTiles l3 [(3,14),(4,14),(5,14)] 3 else l3

/-- An all-floor 15 x 9 layout. -/
def baseLayout : List (List ℕ) := List.replicate 9 (List.replicate 15 0)

/-- Modelled from the spec: `generateDungeon(level, seed, roomCount)` of the
missing `dungeon.ts` (an external collaborator specified at its interface:
it returns a room graph with exactly one START room).  Modelled minimally as
a single start room, which the engine treats opaquely. -/
def generateDungeon (_level : ℤ) (seed : ℚ) (_roomCount : ℕ) : List Room :=
  [ { x := 0, y := 0, rtype := RoomType.START, layout := baseLayout,
      doors := ⟨false, false, false, false⟩, cleared := false,
      visited := false, itemCollected := false, seed := seed,
      savedEntities := [] } ]

/-!  ## Item collection (`GameEngine.collectItem`, lines 794-844) -/

/-- The stat application performed by `collectItem` (lines 830-843): the
sequential per-stat combination rules applied when an item configuration is
found for the collected item.  Branches run exactly when the modifier field
is truthy (nonzero), in source order. -/
def applyItemStats (mods : ItemMods) (s0 : Stats) : Stats :=
  let s1 := if mods.maxHp ≠ 0 then
      { s0 with maxHp := s0.maxHp + mods.maxHp,
                hp := min (s0.hp + mods.maxHp) (s0.maxHp + mods.maxHp) }
    else s0
  let s2 := if mods.hp ≠ 0 then
      { s1 with hp := min (s1.hp + mods.hp) s1.maxHp } else s1
  let s3 := if mods.damage ≠ 0 then
      { s2 with damage := s2.damage * mods.damage } else s2
  let s4 := if mods.speed ≠ 0 then
      { s3 with speed := s3.speed + mods.speed } else s3
  let s5 := if mods.fireRate ≠ 0 then
      { s4 with fireRate := max 5 (s4.fireRate * mods.fireRate) } else s4
  let s6 := if mods.shotSpeed ≠ 0 then
      { s5 with shotSpeed := s5.shotSpeed + mods.shotSpeed } else s5
  let s7 := if mods.range ≠ 0 then
      { s6 with range := s6.range * mods.range } else s6
  let s8 := if mods.bulletScale ≠ 0 then
      { s7 with bulletScale := s7.bulletScale + mods.bulletScale } else s7
  let s9 := if mods.knockback ≠ 0 then
      { s8 with knockback := s8.knockback * mods.knockback } else s8
  if mods.shotSpread ≠ 0 then
    { s9 with shotSpread := mods.shotSpread } else s9

/-- The `GameEngine.collectItem` on the item entity at index `i` of the live
entity list.  The heart-pickup early return handles pure health restores;
the main path removes choice-group siblings (by id, as in the source),
appends to the inventory, flags the current room, sets the notification and
applies the configured stat modifiers. -/
def collectItem (s : GameState) (i : ℕ) : GameState :=
  match s.entities.get? i with
  | none => s
  | some itemE =>
    match itemE.data with
    | EntityData.item ity nm ds grp =>
      let s0 := { s with entities :=
          (s.entities.set i ({ itemE with markedForDeletion := true })) }
      if ity = ItemType.HEART_PICKUP then
        let s1 :=
          match DROPS.find? (fun d => d.itype == ity) with
          | some config =>
            if config.stats.hp ≠ 0 then
              let hp2 := min (s0.player.stats.hp + config.stats.hp)
                s0.player.stats.maxHp
              { s0 with player := { s0.player with stats :=
                  ({ s0.player.stats with hp := hp2 }) } }
            else s0
          | none => s0
        { s1 with notification := some "PICKUP_HEART_DESC",
                  notificationTimer := 60 }
      else
        let s1 :=
          match grp with
          | some _ =>
            { s0 with entities := s0.entities.map (fun (e : Entity) =>
                match e.data with
                | EntityData.item _ _ _ g2 =>
                  if g2 = grp ∧ e.id ≠ itemE.id then
                    { e with markedForDeletion := true } else e
                | _ => e) }
          | none => s0
        let s2 := { s1 with player :=
          { s1.player with inventory := s1.player.inventory ++ [ity] } }
        let s3 := updateCurrentRoom s2 (fun r =>
          let r1 := { r with itemCollected := true }
          if r1.rtype = RoomType.ITEM then
            { r1 with cleared := true,
                      layout := carveDoors r1.layout r1.doors }
          else r1)
        let s4 := { s3 with notification := some (nm ++ ":" ++ ds),
                            notificationTimer := 180 }
        match ITEMS.find? (fun c => c.itype == ity) with
        | some config =>
          { s4 with player := { s4.player with stats :=
              (applyItemStats config.stats s4.player.stats) } }
        | none => s4
    | _ => s

/-!  ## Player construction and spawn operations -/

/-- The `GameEngine.createPlayer`: builds the player from a character template,
falling back to the first template for unknown ids. -/
def createPlayer (characterId : String) : PlayerEntity :=
  let defStats : Stats :=
    { hp := 1, maxHp := 1, speed := 1, damage := 1, fireRate := 10,
      shotSpeed := 1, range := 100, knockback := 0, bulletScale := 1,
      shotSpread := 1 }
  let config := (CHARACTERS.find? (fun c => c.cid == characterId)).getD
    (CHARACTERS.getD 0 ⟨"alpha", "#fff", defStats⟩)
  { x := CANVAS_WIDTH / 2 - PLAYER_SIZE / 2,
    y := CANVAS_HEIGHT / 2 - PLAYER_SIZE / 2,
    w := PLAYER_SIZE, h := PLAYER_SIZE,
    velocity := ⟨0, 0⟩, knockbackVelocity := ⟨0, 0⟩,
    color := config.color, markedForDeletion := false,
    stats := config.baseStats, cooldown := 0, invincibleTimer := 0,
    flashTimer := 0, inventory := [], visualZ := 0 }

/-- Appends an entity to the live set, drawing a fresh id. -/
def pushEntity (s : GameState) (mk : String → Entity) : GameState :=
  let (eid, s1) := freshId s
  { s1 with entities := s1.entities ++ [mk eid] }

/-- The `GameEngine.spawnPedestal`. -/
def spawnPedestal (x y : ℚ) (s : GameState) : GameState :=
  pushEntity s (fun eid =>
    { id := eid, x := x - ITEM_SIZE / 2, y := y - ITEM_SIZE / 2 + 8,
      w := ITEM_SIZE, h := ITEM_SIZE, velocity := ⟨0, 0⟩,
      knockbackVelocity := ⟨0, 0⟩, color := "PEDESTAL",
      markedForDeletion := false, flashTimer := 0, visualZ := 0,
      data := EntityData.pedestal })

/-- The `GameEngine.spawnItem`: a pedestal plus a reward item drawn from the
`ITEMS` table with the given seed (or an unseeded `Math.random()` draw when
no seed is supplied); skipped when the weighted choice yields nothing. -/
def spawnItem (x y : ℚ) (seed : Option ℚ) (choiceGroupId : Option String)
    (s : GameState) : GameState :=
  let s1 := spawnPedestal x y s
  let (rng, s2) : SRNG × GameState :=
    match seed with
    | some sd => (SRNG.mk0 sd, s1)
    | none =>
      let (r, s2) := takeRand s1
      (SRNG.mk0 (r * 100000), s2)
  match (rng.weightedChoice (fun c => c.weight) ITEMS).1 with
  | none => s2
  | some config =>
    pushEntity s2 (fun eid =>
      { id := eid, x := x - ITEM_SIZE / 2, y := y - ITEM_SIZE / 2,
        w := ITEM_SIZE, h := ITEM_SIZE, velocity := ⟨0, 0⟩,
        knockbackVelocity := ⟨0, 0⟩, color := config.color,
        markedForDeletion := false, flashTimer := 0, visualZ := 10,
        data := EntityData.item config.itype config.nameKey config.descKey
          choiceGroupId })

/-- The `GameEngine.spawnPickup`: the 16 x 16 heart drop from `DROPS[0]`. -/
def spawnPickup (x y : ℚ) (s : GameState) : GameState :=
  let defDrop : ItemConfig :=
    { itype := ItemType.HEART_PICKUP, nameKey := "PICKUP_HEART",
      descKey := "PICKUP_HEART_DESC", color := "#f00", weight := 1,
      stats := { hp := 1 } }
  let config := DROPS.getD 0 defDrop
  pushEntity s (fun eid =>
    { id := eid, x := x - 8, y := y - 8, w := 16, h := 16,
      velocity := ⟨0, 0⟩, knockbackVelocity := ⟨0, 0⟩,
      color := config.color, markedForDeletion := false, flashTimer := 0,
      visualZ := 0,
      data := EntityData.item config.itype config.nameKey config.descKey
        none })

/-- The `GameEngine.spawnTrapdoor`. -/
def spawnTrapdoor (x y : ℚ) (s : GameState) : GameState :=
  pushEntity s (fun eid =>
    { id := eid, x := x - 24, y := y - 24, w := 48, h := 48,
      velocity := ⟨0, 0⟩, knockbackVelocity := ⟨0, 0⟩,
      color := "TRAPDOOR", markedForDeletion := false, flashTimer := 0,
      visualZ := 0, data := EntityData.trapdoor })

/-- The `GameEngine.spawnBoss`: the first boss configuration, hp scaled by the
floor level, hovering at `visualZ = 40`. -/
def spawnBoss (x y : ℚ) (s : GameState) : GameState :=
  let config := BOSSES.getD 0
    { etype := EnemyType.BOSS, name := "BOSS", color := "#707", size := 72,
      speed := 1, damage := 1, fireRate := 45, shotSpeed := 5, range := 600,
      hpBase := 80, hpPerLevel := 25, minFloor := 1, flying := true,
      weight := 1, scoreValue := 200 }
  let hp := config.hpBase + (s.floorLevel : ℚ) * config.hpPerLevel
  pushEntity s (fun eid =>
    { id := eid, x := x - config.size / 2, y := y - config.size / 2,
      w := config.size, h := config.size, velocity := ⟨0, 0⟩,
      knockbackVelocity := ⟨0, 0⟩, color := config.color,
      markedForDeletion := false, flashTimer := 0, visualZ := 40,
      data := EntityData.enemy config.etype hp hp AiState.IDLE 0 0
        config.flying
        ⟨config.speed, config.damage, config.fireRate, config.shotSpeed,
         config.range⟩ })

/-!  ## Projectile spawning (`GameEngine.spawnProjectile`, lines 616-664) -/

/-- Pushes one projectile travelling along `(vx, vy)` at the owner's shot
speed, from the owner's center. -/
def pushProj (ownerBox : Box) (ownerId : String) (isPlayer : Bool)
    (baseSize speed damage knockback range : ℚ) (vx vy : ℚ)
    (s : GameState) : GameState :=
  pushEntity s (fun eid =>
    { id := eid,
      x := ownerBox.x + ownerBox.w / 2 - baseSize / 2,
      y := ownerBox.y + ownerBox.h / 2 - baseSize / 2,
      w := baseSize, h := baseSize,
      velocity := ⟨vx * speed, vy * speed⟩, knockbackVelocity := ⟨0, 0⟩,
      color := if isPlayer then "PROJECTILE_FRIENDLY" else "PROJECTILE_ENEMY",
      markedForDeletion := false, flashTimer := 0, visualZ := 10,
      data := EntityData.projectile ownerId damage knockback range })

/-- The `GameEngine.spawnProjectile` for the player as owner: size scaled by the
damage factor and bullet scale, knockback from the knockback stat, and the
1/3/4-way spread fan (other spread values push nothing, as in the source). -/
def spawnProjectileP (M : MathModel) (dir : Vector2) (s : GameState) :
    GameState :=
  let stats := s.player.stats
  let dmgFactor := max 1 (stats.damage / (7/2))
  let baseSize := PROJECTILE_SIZE * dmgFactor * stats.bulletScale
  let push := fun (vx vy : ℚ) (t : GameState) =>
    pushProj s.player.box "player" true baseSize stats.shotSpeed
      stats.damage stats.knockback stats.range vx vy t
  if stats.shotSpread = 1 then push dir.x dir.y s
  else
    let angle := M.atan2A dir.y dir.x
    let spreadRad := 15 * (mathPI / 180)
    if stats.shotSpread = 3 then
      let angles := [angle - spreadRad, angle, angle + spreadRad]
      angles.foldl (fun t a => push (M.cosA a) (M.sinA a) t) s
    else if stats.shotSpread = 4 then
      let angles := [angle - spreadRad * (3/2), angle - spreadRad * (1/2),
                     angle + spreadRad * (1/2), angle + spreadRad * (3/2)]
      angles.foldl (fun t a => push (M.cosA a) (M.sinA a) t) s
    else s

/-- The `GameEngine.spawnProjectile` for an enemy owner: fixed base size, zero
knockback, always a single projectile. -/
def spawnProjectileE (ownerBox : Box) (ownerId : String) (est : EnemyStats)
    (dir : Vector2) (s : GameState) : GameState :=
  pushProj ownerBox ownerId false PROJECTILE_SIZE est.shotSpeed est.damage 0
    est.range dir.x dir.y s

/-!  ## Wall collision (`GameEngine`, lines 846-893) -/

/-- The lower-half "feet" rectangle used for tile collision. -/
def feetRect (x y w h : ℚ) : Box := ⟨x + 4, y + h * (1/2), w - 8, h * (1/2)⟩

/-- Whether one corner point hits a solid tile (out-of-bounds counts as
solid; walls block everyone, rocks only non-flying entities). -/
def pointBlocked (layout : List (List ℕ)) (isFlying : Bool) (px py : ℚ) :
    Bool :=
  let c : ℤ := ⌊px / TILE_SIZE⌋
  let r : ℤ := ⌊py / TILE_SIZE⌋
  if r < 0 ∨ r ≥ (layout.length : ℤ) ∨ c < 0 ∨
      c ≥ ((layout.getD 0 []).length : ℤ) then true
  else
    let tile := tileAt layout r.toNat c.toNat
    tile == 1 || (!isFlying && tile == 2)

/-- The four-corner collision test of `resolveWallCollision`. -/
def rectBlocked (layout : List (List ℕ)) (isFlying : Bool) (rect : Box) :
    Bool :=
  pointBlocked layout isFlying rect.x rect.y ||
  pointBlocked layout isFlying (rect.x + rect.w) rect.y ||
  pointBlocked layout isFlying rect.x (rect.y + rect.h) ||
  pointBlocked layout isFlying (rect.x + rect.w) (rect.y + rect.h)

/-- The per-axis movement resolution of `GameEngine.resolveWallCollision`:
apply X if the feet rectangle at the new X is free, then apply Y against the
(possibly updated) X. -/
def resolveWallCore (rm : Room) (x y w h : ℚ) (vel : Vector2)
    (isFlying : Bool) : ℚ × ℚ :=
  let nextX := x + vel.x
  let nextY := y + vel.y
  let x2 := if rectBlocked rm.layout isFlying (feetRect nextX y w h)
    then x else nextX
  let y2 := if rectBlocked rm.layout isFlying (feetRect x2 nextY w h)
    then y else nextY
  (x2, y2)

/-- The `GameEngine.resolveWallCollision` applied to the player.  The source
dereferences `this.currentRoom!` without a guard, so a `none` room is a
runtime fault, modelled as `none`. -/
def resolveWallP (room : Option Room) (p : PlayerEntity) :
    Option PlayerEntity :=
  room.map (fun rm =>
    let xy := resolveWallCore rm p.x p.y p.w p.h p.velocity false
    { p with x := xy.1, y := xy.2 })

/-- Whether an entity is a flying enemy (`(ent.type === ENEMY) && flying`). -/
def Entity.isFlyingEnemy (e : Entity) : Bool :=
  match e.data with
  | .enemy _ _ _ _ _ _ flying _ => flying
  | _ => false

/-- The `GameEngine.resolveWallCollision` applied to a live entity; `none` room
is a runtime fault as for the player. -/
def resolveWallE (room : Option Room) (e : Entity) : Option Entity :=
  room.map (fun rm =>
    let xy := resolveWallCore rm e.x e.y e.w e.h e.velocity e.isFlyingEnemy
    { e with x := xy.1, y := xy.2 })

/-- The `GameEngine.checkWallCollision`: center-point solid-tile test with
out-of-bounds solid; unguarded `this.currentRoom!`, so `none` room is a
runtime fault. -/
def checkWallCollision (room : Option Room) (e : Entity) : Option Bool :=
  room.map (fun rm =>
    let c : ℤ := ⌊(e.x + e.w / 2) / TILE_SIZE⌋
    let r : ℤ := ⌊(e.y + e.h / 2) / TILE_SIZE⌋
    let map := rm.layout
    if r < 0 ∨ r ≥ (map.length : ℤ) ∨ c < 0 ∨
        c ≥ ((map.getD 0 []).length : ℤ) then true
    else
      let tile := tileAt map r.toNat c.toNat
      tile == 1 || tile == 2)

/-!  ## Knockback decay (`GameEngine.applyPhysics`, lines 583-590) -/

/-- One axis of knockback decay: scale by 0.9 and snap below 0.1 to zero. -/
def decayKb (kv : ℚ) : ℚ :=
  let k := kv * (9/10)
  if |k| < 1/10 then 0 else k

/-- The `GameEngine.applyPhysics` on the player. -/
def applyPhysicsP (p : PlayerEntity) : PlayerEntity :=
  let kx := decayKb p.knockbackVelocity.x
  let ky := decayKb p.knockbackVelocity.y
  { p with knockbackVelocity := ⟨kx, ky⟩,
           velocity := ⟨p.velocity.x + kx, p.velocity.y + ky⟩ }

/-- The `GameEngine.applyPhysics` on a live entity. -/
def applyPhysicsE (e : Entity) : Entity :=
  let kx := decayKb e.knockbackVelocity.x
  let ky := decayKb e.knockbackVelocity.y
  { e with knockbackVelocity := ⟨kx, ky⟩,
           velocity := ⟨e.velocity.x + kx, e.velocity.y + ky⟩ }

/-!  ## Enemy damage (`GameEngine.damageEnemy`, lines 770-792) -/

/-- The `GameEngine.damageEnemy` on the enemy at index `j`: hp reduction, flash,
knockback scaled down for tanks and bosses, and on death the removal flag,
score award (flat 10 plus the configured bonus) and the 5% drop roll. -/
def damageEnemy (s : GameState) (j : ℕ) (amount knockbackForce : ℚ)
    (knockbackDir : Vector2) : GameState :=
  match s.entities.get? j with
  | none => s
  | some e =>
    match e.data with
    | EntityData.enemy ety hp mhp ai timer orbit flying est =>
      let hp2 := hp - amount
      let f1 := if ety = EnemyType.TANK then knockbackForce * (1/5)
        else knockbackForce
      let actualForce := if ety = EnemyType.BOSS then f1 * (1/10) else f1
      let e1 : Entity :=
        { e with
          flashTimer := 5,
          knockbackVelocity :=
            (⟨e.knockbackVelocity.x + knockbackDir.x * actualForce,
              e.knockbackVelocity.y + knockbackDir.y * actualForce⟩ : Vector2),
          data := EntityData.enemy ety hp2 mhp ai timer orbit flying est }
      if hp2 ≤ 0 then
        let e2 := { e1 with markedForDeletion := true }
        let s1 := { s with entities := s.entities.set j e2,
                           score := s.score + 10 }
        let config := (ENEMIES.find? (fun c => c.etype == ety)).orElse
          (fun _ => BOSSES.find? (fun c => c.etype == ety))
        let s2 := match config with
          | some cfg => { s1 with score := s1.score + (cfg.scoreValue - 10) }
          | none => s1
        let (rv, s3) := takeRand s2
        if rv < 1/20 then spawnPickup (e.x + e.w / 2) (e.y + e.h / 2) s3
        else s3
      else { s with entities := s.entities.set j e1 }
    | _ => s

/-!  ## Projectile update (`GameEngine.updateProjectile`, lines 666-695) -/

/-- The `GameEngine.updateProjectile` on the projectile at index `i`: advance by
the velocity, burn the travel budget by the Manhattan magnitude of the
displacement, remove on budget exhaustion or wall hit, then resolve the hit
against the opposing side (enemies for player shots, the player for enemy
shots — the latter always dealing amount 1 with knockback force 10,
regardless of the projectile's damage field). -/
def updateProjectile (M : MathModel) (s : GameState) (i : ℕ) :
    Option GameState :=
  match s.entities.get? i with
  | none => some s
  | some e =>
    match e.data with
    | EntityData.projectile ownerId damage knockback lifeTime =>
      let lt2 := lifeTime - (|e.velocity.x| + |e.velocity.y|)
      let e1 : Entity :=
        { e with
          x := e.x + e.velocity.x, y := e.y + e.velocity.y,
          data := EntityData.projectile ownerId damage knockback lt2 }
      if lt2 ≤ 0 then
        some { s with entities :=
          (s.entities.set i ({ e1 with markedForDeletion := true })) }
      else
        match checkWallCollision (currentRoomOf s) e1 with
        | none => none
        | some true =>
          some { s with entities :=
            (s.entities.set i ({ e1 with markedForDeletion := true })) }
        | some false =>
          let s1 := { s with entities := s.entities.set i e1 }
          if ownerId == "player" then
            match s1.entities.findIdx? (fun en =>
                en.etype == EntityType.ENEMY && checkAABB e1.box en.box) with
            | some j =>
              let s2 := { s1 with entities :=
                (s1.entities.set i ({ e1 with markedForDeletion := true })) }
              some (damageEnemy s2 j damage knockback
                (normalizeVector M e1.velocity))
            | none => some s1
          else
            if checkAABB e1.box s1.player.box then
              let s2 := { s1 with entities :=
                (s1.entities.set i ({ e1 with markedForDeletion := true })) }
              some (damagePlayer 1 10 (normalizeVector M e1.velocity) s2)
            else some s1
    | _ => some s

/-!  ## Enemy update (`GameEngine.updateEnemy`, lines 697-754) -/

/-- JavaScript's floating `%` (truncated remainder).  `x % 0` is `NaN` in
JavaScript, which compares unequal to every number; the guards in the source
only ever compare the remainder against `0`, so `NaN` is modelled by the
nonzero sentinel `1`. -/
def jsModQ (a b : ℚ) : ℚ :=
  if b = 0 then 1
  else a - b * (if 0 ≤ a / b then ((⌊a / b⌋ : ℤ) : ℚ) else ((⌈a / b⌉ : ℤ) : ℚ))

/-- The behavior phase of `GameEngine.updateEnemy` (lines 698-746): the
timer increment and the per-type behavior rules, returning the updated
enemy together with the state (changed only by a shooter's projectile
spawn). -/
def enemyBehavior (M : MathModel) (s : GameState) (e : Entity) :
    Entity × GameState :=
  match e.data with
  | EntityData.enemy ety hp mhp ai timer orbit flying est =>
      let timer1 := timer + 1
      let distToPlayer := distanceM M ⟨e.x, e.y⟩ ⟨s.player.x, s.player.y⟩
      let speed := est.speed
      let eBase : Entity :=
        { e with data :=
            (EntityData.enemy ety hp mhp ai timer1 orbit flying est) }
      if ety = EnemyType.CHASER ∨
            (ety = EnemyType.BOSS ∧ distToPlayer > 100) then
          if jsModQ (timer1 : ℚ) 5 = 0 then
            let dir := normalizeVector M
              ⟨s.player.x - e.x, s.player.y - e.y⟩
            ({ eBase with velocity := ⟨dir.x * speed, dir.y * speed⟩ }, s)
          else (eBase, s)
        else if ety = EnemyType.TANK then
          if jsModQ (timer1 : ℚ) 10 = 0 then
            let dir := normalizeVector M
              ⟨s.player.x - e.x, s.player.y - e.y⟩
            ({ eBase with velocity := ⟨dir.x * speed, dir.y * speed⟩ }, s)
          else (eBase, s)
        else if ety = EnemyType.ORBITER then
          let orbit1 := orbit + (2/100) * (speed / (1/10))
          let targetX := s.player.x + M.cosA orbit1 * 150
          let targetY := s.player.y + M.sinA orbit1 * 150
          let dx := targetX - e.x
          let dy := targetY - e.y
          ({ eBase with
              data := EntityData.enemy ety hp mhp ai timer1 orbit1 flying est,
              velocity := ⟨dx * (5/100) * (speed / (1/10)),
                           dy * (5/100) * (speed / (1/10))⟩ }, s)
        else if ety = EnemyType.SHOOTER then
          let e1 := { eBase with velocity := (⟨0, 0⟩ : Vector2) }
          if jsModQ (timer1 : ℚ) est.fireRate = 0 ∧
              distToPlayer < est.range then
            let dir := normalizeVector M
              ⟨s.player.x - e.x, s.player.y - e.y⟩
            (e1, spawnProjectileE e1.box e1.id est dir s)
          else (e1, s)
        else if ety = EnemyType.DASHER then
          if ai = AiState.IDLE then
            let waitTime : ℤ := ⌊60 / (speed / (1/10))⌋
            if timer1 > waitTime then
              let dir := normalizeVector M
                ⟨s.player.x - e.x, s.player.y - e.y⟩
              ({ eBase with
                  data := EntityData.enemy ety hp mhp AiState.ATTACK 0 orbit
                    flying est,
                  velocity := ⟨dir.x * speed * 4, dir.y * speed * 4⟩ }, s)
            else ({ eBase with velocity := (⟨0, 0⟩ : Vector2) }, s)
          else
            if timer1 > 20 then
              ({ eBase with data :=
                  (EntityData.enemy ety hp mhp AiState.IDLE 0 orbit flying
                    est) }, s)
            else (eBase, s)
        else (eBase, s)
  | _ => (e, s)

/-- The `GameEngine.updateEnemy` on the enemy at index `i`: the behavior phase,
wall resolution (a runtime fault when no room is active, like every
`resolveWallCollision` call), and contact damage — always amount 1 with
knockback force 15 directed away from the enemy, regardless of the enemy's
damage stat. -/
def updateEnemy (M : MathModel) (s : GameState) (i : ℕ) : Option GameState :=
  match s.entities.get? i with
  | none => some s
  | some e =>
    match e.data with
    | EntityData.enemy _ _ _ _ _ _ _ _ =>
      let br := enemyBehavior M s e
      let s1 := { br.2 with entities := br.2.entities.set i br.1 }
      match resolveWallE (currentRoomOf s1) br.1 with
      | none => none
      | some e3 =>
        let s2 := { s1 with entities := s1.entities.set i e3 }
        if checkAABB e3.box s2.player.box then
          let dir := normalizeVector M
            ⟨s2.player.x - e3.x, s2.player.y - e3.y⟩
          some (damagePlayer 1 15 dir s2)
        else some s2
    | _ => some s

/-!  ## Enemy spawning (`GameEngine.spawnEnemiesForRoom`, lines 223-293) -/

/-- The `checkTileBlocked` closure: any of the four corners of a
`size`-sized box on a solid or out-of-bounds tile. -/
def checkTileBlocked (layout : List (List ℕ)) (x y size : ℚ) : Bool :=
  [(x, y), (x + size, y), (x, y + size), (x + size, y + size)].any
    (fun p =>
      let cx : ℤ := ⌊p.1 / TILE_SIZE⌋
      let cy : ℤ := ⌊p.2 / TILE_SIZE⌋
      if cy < 0 ∨ cy ≥ (layout.length : ℤ) ∨ cx < 0 ∨
          cx ≥ ((layout.getD 0 []).length : ℤ) then true
      else
        let tile := tileAt layout cy.toNat cx.toNat
        tile == 1 || tile == 2)

/-- The ten placement attempts for one enemy: draw a position, reject it
when too close to the player or on a blocked tile. -/
def tryPlaceEnemy (M : MathModel) (player : PlayerEntity)
    (layout : List (List ℕ)) (size : ℚ) :
    ℕ → SRNG → Option (ℚ × ℚ) × SRNG
  | 0, rng => (none, rng)
  | n + 1, rng =>
    let (r1, rng1) := rng.next
    let (r2, rng2) := rng1.next
    let ex := TILE_SIZE * 2 + r1 * (CANVAS_WIDTH - TILE_SIZE * 4)
    let ey := TILE_SIZE * 2 + r2 * (CANVAS_HEIGHT - TILE_SIZE * 4)
    if distanceM M ⟨ex, ey⟩ ⟨player.x, player.y⟩ < 150 then
      tryPlaceEnemy M player layout size n rng2
    else if checkTileBlocked layout ex ey size then
      tryPlaceEnemy M player layout size n rng2
    else (some (ex, ey), rng2)

/-- The outer spawn loop of `spawnEnemiesForRoom`: per slot, a weighted
enemy choice, a placement attempt, and on success a fresh enemy entity. -/
def spawnEnemyLoop (M : MathModel) (rm : Room) (floorLevel : ℤ)
    (validEnemies : List EnemyConfig) :
    ℕ → SRNG → GameState → GameState
  | 0, _, s => s
  | n + 1, rng, s =>
    let (cfgO, rng1) := rng.weightedChoice (fun c => c.weight) validEnemies
    match cfgO with
    | none => spawnEnemyLoop M rm floorLevel validEnemies n rng1 s
    | some config =>
      let (posO, rng2) :=
        tryPlaceEnemy M s.player rm.layout config.size 10 rng1
      match posO with
      | none => spawnEnemyLoop M rm floorLevel validEnemies n rng2 s
      | some pos =>
        let (orb, rng3) := rng2.next
        let hp := config.hpBase + (floorLevel : ℚ) * config.hpPerLevel
        let s1 := pushEntity s (fun eid =>
          { id := eid, x := pos.1, y := pos.2, w := config.size,
            h := config.size, velocity := ⟨0, 0⟩,
            knockbackVelocity := ⟨0, 0⟩, color := config.color,
            markedForDeletion := false, flashTimer := 0,
            visualZ := if config.flying then 20 else 0,
            data := EntityData.enemy config.etype hp hp AiState.IDLE 0
              (orb * mathPI * 2) config.flying
              ⟨config.speed, config.damage, config.fireRate,
               config.shotSpeed, config.range⟩ })
        spawnEnemyLoop M rm floorLevel validEnemies n rng3 s1

/-- The `GameEngine.spawnEnemiesForRoom`: the unseeded count draw happens before
the item-room early return (consuming one `Math.random()` draw either way),
then the seeded per-room RNG drives the spawn loop. -/
def spawnEnemiesForRoom (M : MathModel) (rm : Room) (s : GameState) :
    GameState :=
  let (rv, s1) := takeRand s
  let count : ℤ := 2 + ⌊rv * 3⌋ + s.floorLevel
  if rm.rtype = RoomType.ITEM then s1
  else
    let rng := SRNG.mk0 (rm.seed + 100)
    let validEnemies := ENEMIES.filter (fun e =>
      decide (e.minFloor ≤ s1.floorLevel))
    spawnEnemyLoop M rm s1.floorLevel validEnemies count.toNat rng s1

/-!  ## Room entry (`GameEngine.enterRoom`, lines 128-221) -/

/-- The `GameEngine.enterRoom` into the room at index `j` of the dungeon:
snapshot the left room's persistent entities, adopt the new room, sync the
item-room clear flag, carve doors when already cleared, reset the dynamic
entity set, place the player by entry direction, restore or generate
content, spawn living enemies for uncleared non-start rooms, and mark the
room visited. -/
def enterRoom (M : MathModel) (j : ℕ) (inputDir : Option Direction)
    (s : GameState) : GameState :=
  let persistentTypes : List EntityType :=
    [EntityType.ITEM, EntityType.PEDESTAL, EntityType.TRAPDOOR,
     EntityType.OBSTACLE]
  let toSave := s.entities.filter (fun e =>
    persistentTypes.contains e.etype && !e.markedForDeletion)
  let s1 := updateCurrentRoom s (fun r => { r with savedEntities := toSave })
  let s2 := { s1 with currentRoomIdx := some j }
  match s1.dungeon.get? j with
  | none => s2
  | some room0 =>
    let room1 := if room0.rtype = RoomType.ITEM ∧ room0.itemCollected then
        { room0 with cleared := true } else room0
    let room2 := if room1.cleared then
        { room1 with layout := carveDoors room1.layout room1.doors }
      else room1
    let s3 := { s2 with dungeon := s2.dungeon.set j room2, entities := [] }
    let cx := CANVAS_WIDTH / 2
    let cy := CANVAS_HEIGHT / 2
    let offset := TILE_SIZE + 16
    let doorW := TILE_SIZE * 3
    let p0 := { s3.player with knockbackVelocity := (⟨0, 0⟩ : Vector2) }
    let minX := cx - doorW / 2
    let maxX := cx + doorW / 2 - p0.w
    let minY := cy - doorW / 2
    let maxY := cy + doorW / 2 - p0.h
    let p1 :=
      match inputDir with
      | some Direction.UP =>
        { p0 with y := CANVAS_HEIGHT - offset - p0.h,
                  x := max minX (min p0.x maxX) }
      | some Direction.DOWN =>
        { p0 with y := offset, x := max minX (min p0.x maxX) }
      | some Direction.LEFT =>
        { p0 with x := CANVAS_WIDTH - offset - p0.w,
                  y := max minY (min p0.y maxY) }
      | some Direction.RIGHT =>
        { p0 with x := offset, y := max minY (min p0.y maxY) }
      | none =>
        { p0 with x := cx - p0.w / 2, y := cy - p0.h / 2 }
    let s4 := { s3 with player := p1 }
    let s5 :=
      if room2.savedEntities.length > 0 then
        { s4 with entities := s4.entities ++ room2.savedEntities }
      else if ¬room2.visited then
        let sA := if room2.rtype = RoomType.ITEM then
            spawnItem cx cy (some room2.seed) none s4 else s4
        if room2.rtype = RoomType.BOSS then spawnBoss cx cy sA else sA
      else s4
    let s6 :=
      if ¬room2.cleared ∧ room2.rtype ≠ RoomType.START then
        if room2.rtype = RoomType.BOSS ∧ room2.visited then
          spawnBoss cx cy s5
        else if room2.rtype = RoomType.NORMAL then
          spawnEnemiesForRoom M room2 s5
        else s5
      else s5
    updateCurrentRoom s6 (fun r => { r with visited := true })

/-!  ## Floor loading and run start -/

/-- The seeded geometric-growth loop of `calculateRoomCount`. -/
def roomCountGo : ℕ → SRNG → ℤ → ℤ
  | 0, _, count => count
  | n + 1, rng, count =>
    let (pct, rng1) := rng.range (1/5) (3/5)
    roomCountGo n rng1 ⌊(count : ℚ) * (1 + pct)⌋

/-- The `GameEngine.calculateRoomCount`: compounds a seeded 20%-60% growth
factor per prior level from a base count of 5. -/
def calculateRoomCount (baseSeed : ℚ) (level : ℤ) : ℤ :=
  roomCountGo (level - 1).toNat (SRNG.mk0 baseSeed) 5

/-- The `GameEngine.loadFloor`: derive the floor seed, generate the dungeon and
enter its start room with no entry direction.  The old current-room object
is not part of the fresh dungeon, so writes through the stale alias are
unobservable; the embedding drops the index before entering. -/
def loadFloor (M : MathModel) (level : ℤ) (s : GameState) : GameState :=
  let s1 := { s with floorLevel := level }
  let floorSeed := s1.baseSeed + (level : ℚ) * 1000
  let roomCount := calculateRoomCount s1.baseSeed level
  let dungeon := generateDungeon level floorSeed roomCount.toNat
  let s2 := { s1 with dungeon := dungeon, currentRoomIdx := none }
  match dungeon.findIdx? (fun r => r.rtype == RoomType.START) with
  | some j => enterRoom M j none s2
  | none => s2

/-- The `GameEngine.startNewGame`: fresh run seed (`Date.now()`, passed in as
`now`), reset score and floor, rebuild the player from the character
template, load floor 1 and set the status to PLAYING. -/
def startNewGame (M : MathModel) (characterId : String) (now : ℚ)
    (s : GameState) : GameState :=
  let s1 := { s with
    characterId := characterId, floorLevel := 1, score := 0,
    baseSeed := now, player := createPlayer characterId }
  let s2 := loadFloor M 1 s1
  { s2 with status := GameStatus.PLAYING, restartTimer := 0 }

/-!  ## Door traversal (`GameEngine.checkDoorCollisions`, lines 895-932) -/

/-- The `GameEngine.checkDoorCollisions`: guarded no-op without a current room;
otherwise resolve which door frame the player stands in, look up the
adjacent room by grid offset, and enter it with the triggering direction. -/
def checkDoorCollisions (M : MathModel) (s : GameState) : GameState :=
  match currentRoomOf s with
  | none => s
  | some rm =>
    let p := s.player
    let w := CANVAS_WIDTH
    let h := CANVAS_HEIGHT
    let ts := TILE_SIZE
    let doors := rm.doors
    let cx := w / 2
    let cy := h / 2
    let doorSpan := ts * (3/2)
    let pCx := p.x + p.w / 2
    let pCy := p.y + p.h / 2
    let st0 : Option Direction × ℤ × ℤ := (none, rm.x, rm.y)
    let st1 := if doors.UP ∧ p.y < ts ∧ |pCx - cx| < doorSpan then
        ((some Direction.UP : Option Direction), st0.2.1, st0.2.2 - 1)
      else st0
    let st2 := if doors.DOWN ∧ p.y > h - ts - p.h ∧ |pCx - cx| < doorSpan
      then ((some Direction.DOWN : Option Direction), st1.2.1, st1.2.2 + 1)
      else st1
    let st3 := if doors.LEFT ∧ p.x < ts ∧ |pCy - cy| < doorSpan then
        ((some Direction.LEFT : Option Direction), st2.2.1 - 1, st2.2.2)
      else st2
    let st4 := if doors.RIGHT ∧ p.x > w - ts - p.w ∧ |pCy - cy| < doorSpan
      then ((some Direction.RIGHT : Option Direction), st3.2.1 + 1, st3.2.2)
      else st3
    match st4.1 with
    | none => s
    | some d =>
      match s.dungeon.findIdx? (fun r =>
          r.x == st4.2.1 && r.y == st4.2.2) with
      | some jj => enterRoom M jj (some d) s
      | none => s

/-!  ## UI snapshot (`GameEngine.getUiState`, lines 400-451) -/

/-- One room of the minimap reduction in the snapshot. -/
structure MiniRoom where
  x : ℤ
  y : ℤ
  rtype : RoomType
  visited : Bool
deriving DecidableEq

/-- The nearest inspectable item of the snapshot. -/
structure NearbyItem where
  name : String
  descr : String
  x : ℚ
  y : ℚ
  w : ℚ
  h : ℚ
deriving DecidableEq

/-- The active boss summary of the snapshot. -/
structure BossData where
  name : String
  hp : ℚ
  maxHp : ℚ
deriving DecidableEq

/-- The per-tick UI snapshot handed to the `onUiUpdate` callback. -/
structure UiSnapshot where
  hp : ℚ
  maxHp : ℚ
  floor : ℤ
  score : ℚ
  seed : ℚ
  items : ℕ
  notification : Option String
  dungeonMap : List MiniRoom
  currentRoomPos : ℤ × ℤ
  stats : Stats
  nearbyItem : Option NearbyItem
  boss : Option BossData
deriving DecidableEq

/-- The `GameEngine.getUiState`: a read-only snapshot of the engine state,
including the nearest-item scan (within the 80 px inspection radius) and
the boss health summary. -/
def getUiState (M : MathModel) (s : GameState) : UiSnapshot :=
  let scan : Option NearbyItem × Option BossData :=
    match currentRoomOf s with
    | none => (none, none)
    | some _ =>
      let cx := s.player.x + s.player.w / 2
      let cy := s.player.y + s.player.h / 2
      let res := s.entities.foldl
        (fun (acc : ℚ × Option NearbyItem × Option BossData) (e : Entity) =>
          let acc1 :=
            match e.data with
            | EntityData.item _ nm ds _ =>
              if !e.markedForDeletion then
                let ecx := e.x + e.w / 2
                let ecy := e.y + e.h / 2
                let d := M.sqrtA ((ecx - cx) ^ 2 + (ecy - cy) ^ 2)
                if d < acc.1 then
                  (d, some ⟨nm, ds, e.x, e.y, e.w, e.h⟩, acc.2.2)
                else acc
              else acc
            | _ => acc
          match e.data with
          | EntityData.enemy ety hp mhp _ _ _ _ _ =>
            if ety = EnemyType.BOSS then
              let conf := BOSSES.find? (fun c => c.etype == EnemyType.BOSS)
              (acc1.1, acc1.2.1,
               some ⟨((conf.map (fun c => c.name)).getD "BOSS"), hp, mhp⟩)
            else acc1
          | _ => acc1)
        ((80 : ℚ), (none : Option NearbyItem), (none : Option BossData))
      (res.2.1, res.2.2)
  { hp := s.player.stats.hp, maxHp := s.player.stats.maxHp,
    floor := s.floorLevel, score := s.score, seed := s.baseSeed,
    items := s.player.inventory.length, notification := s.notification,
    dungeonMap := s.dungeon.map (fun r => ⟨r.x, r.y, r.rtype, r.visited⟩),
    currentRoomPos :=
      (match currentRoomOf s with
       | some r => (r.x, r.y)
       | none => ((0 : ℤ), (0 : ℤ))),
    stats := s.player.stats, nearbyItem := scan.1, boss := scan.2 }

/-!  ## Enemy separation (`GameEngine.resolveEnemyPhysics`, lines 592-614) -/

/-- Ordered pairs `(i, j)` with `i` before `j` in the list. -/
def allPairs : List ℕ → List (ℕ × ℕ)
  | [] => []
  | a :: rest => rest.map (fun b => (a, b)) ++ allPairs rest

/-- The indices of the enemy entities, in list order (the `filter` that
builds the `enemies` array at line 516). -/
def enemyIdxList (es : List Entity) : List ℕ :=
  (List.range es.length).filter (fun i =>
    match es.get? i with
    | some e => e.etype == EntityType.ENEMY
    | none => false)

/-- Enemy types exempt from the separation pass. -/
def sepFlyType (ety : EnemyType) : Bool :=
  ety == EnemyType.SHOOTER || ety == EnemyType.ORBITER

/-- The `GameEngine.resolveEnemyPhysics`: symmetric pairwise separation of
overlapping non-flying enemies. -/
def resolveEnemyPhysics (M : MathModel) (idxs : List ℕ) (s : GameState) :
    GameState :=
  (allPairs idxs).foldl (fun t pr =>
    match t.entities.get? pr.1, t.entities.get? pr.2 with
    | some e1, some e2 =>
      match e1.data, e2.data with
      | EntityData.enemy ty1 _ _ _ _ _ _ _, EntityData.enemy ty2 _ _ _ _ _ _ _ =>
        if sepFlyType ty1 || sepFlyType ty2 then t
        else
          let dx := e1.x - e2.x
          let dy := e1.y - e2.y
          let dist := M.sqrtA (dx * dx + dy * dy)
          let minDist := e1.w
          if dist < minDist ∧ dist > 0 then
            let overlap := minDist - dist
            let pushX := (dx / dist) * (overlap / 2)
            let pushY := (dy / dist) * (overlap / 2)
            let e1n := { e1 with x := e1.x + pushX, y := e1.y + pushY }
            let e2n := { e2 with x := e2.x - pushX, y := e2.y - pushY }
            { t with entities := (t.entities.set pr.1 e1n).set pr.2 e2n }
          else t
      | _, _ => t
    | _, _ => t) s

/-!  ## The per-tick pipeline (`GameEngine.update`, lines 453-581) -/

/-- The tick input contract. -/
structure Input where
  moveX : ℚ
  moveY : ℚ
  shoot : Option Vector2
  restart : Bool
  pause : Bool
deriving DecidableEq

/-- The room-clear evaluation of `update` (lines 519-539): on the tick the
current non-item room first has zero enemies, set `cleared`, carve doors,
roll the 10% bonus pickup, and for boss rooms spawn the trapdoor and the
two choice-grouped reward items. -/
def clearStage (roomIsClear : Bool) (s : GameState) : GameState :=
  match currentRoomOf s with
  | none => s
  | some rm =>
    if ¬rm.cleared ∧ roomIsClear ∧ rm.rtype ≠ RoomType.ITEM then
      let s1 := updateCurrentRoom s (fun r =>
        { r with cleared := true, layout := carveDoors r.layout r.doors })
      let (rv, s2) := takeRand s1
      let cx := CANVAS_WIDTH / 2
      let cy := CANVAS_HEIGHT / 2
      let s3 := if rv < 1/10 then spawnPickup cx cy s2 else s2
      if rm.rtype = RoomType.BOSS then
        let s4 := spawnTrapdoor cx cy s3
        let off : ℚ := 80
        let choiceId := "boss_reward_" ++ toString s.floorLevel
        let rng0 := SRNG.mk0 (rm.seed + 999)
        let (r1, rng1) := rng0.next
        let s5 := spawnItem (cx - off) cy (some (r1 * 10000))
          (some choiceId) s4
        let (r2, _) := rng1.next
        spawnItem (cx + off) cy (some (r2 * 10000)) (some choiceId) s5
      else s3
    else s

/-- The door-traversal stage of `update` (lines 541-543): door collisions
are only checked while the current room is cleared. -/
def doorStage (M : MathModel) (s : GameState) : GameState :=
  match currentRoomOf s with
  | none => s
  | some rm => if rm.cleared then checkDoorCollisions M s else s

/-- One iteration of the entity `forEach` (lines 547-577) on index `i`:
skip removed entities, movement/knockback bookkeeping, flash decrement,
then per-type dispatch.  The returned flag records a trapdoor-triggered
floor load. -/
def processEntity (M : MathModel) (s : GameState) (i : ℕ) :
    Option (GameState × Bool) :=
  match s.entities.get? i with
  | none => some (s, false)
  | some e =>
    if e.markedForDeletion then some (s, false)
    else
      let e1 :=
        if e.etype == EntityType.ENEMY then applyPhysicsE e
        else if e.etype != EntityType.PROJECTILE &&
            e.etype != EntityType.PEDESTAL then
          { e with x := e.x + e.velocity.x, y := e.y + e.velocity.y }
        else e
      let e2 := if e1.flashTimer ≠ 0 ∧ e1.flashTimer > 0 then
          { e1 with flashTimer := e1.flashTimer - 1 } else e1
      let s1 := { s with entities := s.entities.set i e2 }
      match e2.data with
      | EntityData.projectile _ _ _ _ =>
        (updateProjectile M s1 i).map (fun t => (t, false))
      | EntityData.enemy _ _ _ _ _ _ _ _ =>
        (updateEnemy M s1 i).map (fun t => (t, false))
      | EntityData.item _ _ _ _ =>
        if checkAABB s1.player.box e2.box then some (collectItem s1 i, false)
        else some (s1, false)
      | EntityData.trapdoor =>
        if checkAABB s1.player.box e2.box then
          some (loadFloor M (s1.floorLevel + 1) s1, true)
        else some (s1, false)
      | _ => some (s1, false)

/-- The entity `forEach`: the iteration range is fixed to the length at
entry (entities appended mid-loop are not visited, per the `forEach`
contract).  After a trapdoor floor load the source keeps iterating the
replaced, garbage array, whose element mutations are unobservable through
the engine state; modelled by stopping the loop there. -/
def entityLoopGo (M : MathModel) : ℕ → ℕ → GameState → Option GameState
  | 0, _, s => some s
  | n + 1, i, s =>
    match processEntity M s i with
    | none => none
    | some (s1, floorLoaded) =>
      if floorLoaded then some s1
      else entityLoopGo M n (i + 1) s1

/-- The entity loop over the live set. -/
def entityLoop (M : MathModel) (s : GameState) : Option GameState :=
  entityLoopGo M s.entities.length 0 s

/-- The `GameEngine.update`: the full per-tick pipeline.  Returns `none` when
the tick would fault at a `this.currentRoom!` dereference; otherwise the
next state together with the UI snapshot passed to `onUiUpdate` (or `none`
when no snapshot is emitted, i.e. on the non-PLAYING, non-PAUSED early
return). -/
def update (M : MathModel) (input : Input) (now : ℚ) (s : GameState) :
    Option (GameState × Option UiSnapshot) :=
  let s1 :=
    if input.pause then
      if s.pauseLocked then s
      else
        let st := if s.status = GameStatus.PLAYING then GameStatus.PAUSED
          else if s.status = GameStatus.PAUSED then GameStatus.PLAYING
          else s.status
        { s with status := st, pauseLocked := true }
    else { s with pauseLocked := false }
  let s2 :=
    if input.restart then
      let sa := { s1 with restartTimer := s1.restartTimer + 1 }
      if sa.restartTimer > 60 then
        let sb := startNewGame M sa.characterId now sa
        { sb with notification := some "NOTIF_RESTART",
                  notificationTimer := 120 }
      else sa
    else { s1 with restartTimer := 0 }
  if s2.status = GameStatus.PAUSED then some (s2, some (getUiState M s2))
  else if s2.status ≠ GameStatus.PLAYING then some (s2, none)
  else
    let s3 :=
      if s2.notificationTimer > 0 then
        let nt := s2.notificationTimer - 1
        { s2 with notificationTimer := nt,
                  notification := if nt ≤ 0 then none else s2.notification }
      else s2
    let pv : Vector2 :=
      if input.moveX ≠ 0 ∨ input.moveY ≠ 0 then
        ⟨input.moveX * s3.player.stats.speed,
         input.moveY * s3.player.stats.speed⟩
      else ⟨0, 0⟩
    let p1 := applyPhysicsP ({ s3.player with velocity := pv })
    match resolveWallP (currentRoomOf s3) p1 with
    | none => none
    | some p2 =>
      let p3 := if p2.cooldown > 0 then
          { p2 with cooldown := p2.cooldown - 1 } else p2
      let s4 := { s3 with player := p3 }
      let s5 :=
        match input.shoot with
        | some d =>
          if s4.player.cooldown ≤ 0 then
            let sp := spawnProjectileP M d s4
            { sp with player :=
                { sp.player with cooldown := sp.player.stats.fireRate } }
          else s4
        | none => s4
      let s6 := { s5 with player := tickPlayerTimers s5.player }
      let enemyIdxs := enemyIdxList s6.entities
      let roomIsClear := enemyIdxs.isEmpty
      let s7 := clearStage roomIsClear s6
      let s8 := doorStage M s7
      let s9 :=
        if s8.currentRoomIdx = s6.currentRoomIdx then
          resolveEnemyPhysics M enemyIdxs s8
        else s8
      match entityLoop M s9 with
      | none => none
      | some s10 =>
        let s11 := { s10 with entities :=
          (s10.entities.filter (fun e => !e.markedForDeletion)) }
        some (s11, some (getUiState M s11))

/-!  ## Scenario combinators

Compositions of the embedded operations, used to state the iterated claims. -/

/-- Iterated ticks of `updateProjectile` on the projectile at index 0
(free flight between full ticks). -/
def projFlight (M : MathModel) : ℕ → GameState → Option GameState
  | 0, s => some s
  | n + 1, s => (updateProjectile M s 0).bind (projFlight M n)

/-- A batch of `damagePlayer` calls landing within a single tick. -/
def damageCalls (cs : List (ℚ × ℚ × Vector2)) (s : GameState) : GameState :=
  cs.foldl (fun t c => damagePlayer c.1 c.2.1 c.2.2 t) s

/-- The per-tick player-timer decrement, applied to the whole state (the
position of lines 512-513 inside `update`). -/
def tickTimersState (s : GameState) : GameState :=
  { s with player := tickPlayerTimers s.player }

/-- A sequence of ticks, each decrementing the timers and then applying an
arbitrary batch of `damagePlayer` calls — the order in which `update`
arranges the invincibility decrement and the contact/projectile damage. -/
def harassRounds (css : List (List (ℚ × ℚ × Vector2))) (s : GameState) :
    GameState :=
  css.foldl (fun t cs => damageCalls cs (tickTimersState t)) s

/-- The lone free-flying projectile `e` (owner `"player"`, damage `dmg`,
knockback `kb`, initial budget `B`) as it stands after `k` ticks of
`updateProjectile`. -/
def projAt (e : Entity) (dmg kb B : ℚ) (k : ℕ) : Entity :=
  { e with
    x := e.x + (k : ℚ) * e.velocity.x,
    y := e.y + (k : ℚ) * e.velocity.y,
    data := EntityData.projectile "player" dmg kb
      (B - (k : ℚ) * (|e.velocity.x| + |e.velocity.y|)) }

/-!  ## Concrete fixtures

Closed instances used by witnesses and counterexamples.  Their control flow
never consults the abstract math functions, so the trivial model `M0` is
adequate for them. -/

/-- A concrete math model. -/
def M0 : MathModel := ⟨fun _ => 0, fun _ => 0, fun _ => 0, fun _ _ => 0⟩

/-- A bare start room with an all-floor layout and no doors. -/
def room0 : Room :=
  { x := 0, y := 0, rtype := RoomType.START, layout := baseLayout,
    doors := ⟨false, false, false, false⟩, cleared := false,
    visited := true, itemCollected := false, seed := 7,
    savedEntities := [] }

/-- A PLAYING state: default player centered in `room0`, no live entities. -/
def st0 : GameState :=
  { status := GameStatus.PLAYING, floorLevel := 1, baseSeed := 0,
    score := 0, player := createPlayer "alpha", entities := [],
    currentRoomIdx := some 0, dungeon := [room0], notification := none,
    notificationTimer := 0, restartTimer := 0, pauseLocked := false,
    characterId := "alpha", nextId := 0, rand := [1, 1, 1, 1] }

/-- The neutral tick input. -/
def nInput : Input := ⟨0, 0, none, false, false⟩

/-- A player-owned projectile at `(96, 96)` with horizontal velocity `vx`
and travel budget `lt`. -/
def mkProjE (vx lt : ℚ) : Entity :=
  { id := "e0", x := 96, y := 96, w := 10, h := 10, velocity := ⟨vx, 0⟩,
    knockbackVelocity := ⟨0, 0⟩, color := "", markedForDeletion := false,
    flashTimer := 0, visualZ := 10,
    data := EntityData.projectile "player" 3 5 lt }

/-- A state whose only entity is the projectile `mkProjE vx lt`. -/
def stProj (vx lt : ℚ) : GameState := { st0 with entities := [mkProjE vx lt] }

/-- An uncleared ITEM room and a PLAYING state inside it. -/
def roomItem : Room := { room0 with rtype := RoomType.ITEM }

/-- A PLAYING state inside the uncleared, enemy-free ITEM room. -/
def stItemRoom : GameState := { st0 with dungeon := [roomItem] }

/-- A PAUSED state (pause latch released). -/
def stPaused : GameState := { st0 with status := GameStatus.PAUSED }

/-- A fresh pause press combined with a movement intent. -/
def pauseMoveInput : Input := ⟨1, 0, none, false, true⟩

/-- A heart pickup that carries a choice-group id. -/
def heartG : Entity :=
  { id := "h1", x := 0, y := 0, w := 16, h := 16, velocity := ⟨0, 0⟩,
    knockbackVelocity := ⟨0, 0⟩, color := "", markedForDeletion := false,
    flashTimer := 0, visualZ := 0,
    data := EntityData.item ItemType.HEART_PICKUP "PICKUP_HEART"
      "PICKUP_HEART_DESC" (some "g") }

/-- A live reward item sharing the choice group of `heartG`. -/
def siblingG : Entity :=
  { id := "h2", x := 60, y := 0, w := 32, h := 32, velocity := ⟨0, 0⟩,
    knockbackVelocity := ⟨0, 0⟩, color := "", markedForDeletion := false,
    flashTimer := 0, visualZ := 10,
    data := EntityData.item (ItemType.other 1) "A" "B" (some "g") }

/-- A state holding the grouped heart and its sibling. -/
def stGroup : GameState := { st0 with entities := [heartG, siblingG] }

/-- A lone heart pickup without a choice group. -/
def heartSolo : Entity :=
  { id := "h3", x := 340, y := 200, w := 16, h := 16, velocity := ⟨0, 0⟩,
    knockbackVelocity := ⟨0, 0⟩, color := "", markedForDeletion := false,
    flashTimer := 0, visualZ := 0,
    data := EntityData.item ItemType.HEART_PICKUP "PICKUP_HEART"
      "PICKUP_HEART_DESC" none }

/-- A state holding only the lone heart. -/
def stHeart : GameState := { st0 with entities := [heartSolo] }

/-- Reference stats with `hp = maxHp = 5`. -/
def statsA : Stats :=
  { hp := 5, maxHp := 5, speed := 3, damage := 7/2, fireRate := 10,
    shotSpeed := 7, range := 300, knockback := 5, bulletScale := 1,
    shotSpread := 1 }

/-- An item-modifier record whose only effect is `maxHp -= 10`. -/
def modsNeg : ItemMods := { maxHp := -10 }

/-- A stationary shooter with a large damage stat (9), overlapping the
player, whose fire cadence does not trigger this tick. -/
def shooterE : Entity :=
  { id := "en1", x := 344, y := 200, w := 26, h := 26, velocity := ⟨0, 0⟩,
    knockbackVelocity := ⟨0, 0⟩, color := "", markedForDeletion := false,
    flashTimer := 0, visualZ := 20,
    data := EntityData.enemy EnemyType.SHOOTER 5 5 AiState.IDLE 0 0 true
      ⟨0, 9, 60, 4, 300⟩ }

/-- A state with the overlapping shooter as its only entity. -/
def stContact : GameState := { st0 with entities := [shooterE] }

/-- An enemy-owned projectile with a large damage field (9), overlapping
the player, with budget to spare. -/
def projE9 : Entity :=
  { id := "p9", x := 342, y := 200, w := 10, h := 10, velocity := ⟨2, 0⟩,
    knockbackVelocity := ⟨0, 0⟩, color := "", markedForDeletion := false,
    flashTimer := 0, visualZ := 10,
    data := EntityData.projectile "en1" 9 0 50 }

/-- A state with the enemy projectile as its only entity. -/
def stProjHit : GameState := { st0 with entities := [projE9] }

/-- A state with no active room. -/
def stNoRoom : GameState := { st0 with currentRoomIdx := none, dungeon := [] }

/-- An uncleared NORMAL room with no doors. -/
def roomNorm : Room := { room0 with rtype := RoomType.NORMAL }

/-- A PLAYING state inside the uncleared, enemy-free NORMAL room. -/
def stNorm : GameState := { st0 with dungeon := [roomNorm] }


/-- A true `cleared` flag at a dungeon slot survives the step from `d` to
`d'`: the room instance at that slot is still present and still cleared
(the per-instance persistence of the flag). -/
def keepsCleared (d d' : List Room) : Prop :=
  ∀ i r, d.get? i = some r → r.cleared = true →
    ∃ r', d'.get? i = some r' ∧ r'.cleared = true

/-- The fixture room, already cleared. -/
def roomCleared : Room := { room0 with cleared := true }

/-- A PLAYING state inside the cleared fixture room. -/
def stCleared : GameState := { st0 with dungeon := [roomCleared] }

/-- The ITEM fixture room with its pedestal item already collected. -/
def roomItemC : Room := { roomItem with itemCollected := true }

/-- A PLAYING state whose dungeon is the collected ITEM room. -/
def stItemC : GameState := { st0 with dungeon := [roomItemC] }

/-- A PLAYING state inside the uncollected ITEM room holding the grouped
reward item `siblingG` as its only entity. -/
def stPickItem : GameState :=
  { st0 with dungeon := [roomItem], entities := [siblingG] }

end BG

namespace BG

/-- A `damagePlayer` call made inside the invincibility window is the
identity on the whole engine state. -/
theorem damagePlayer_invincible (a f : ℚ) (d : Vector2) (s : GameState)
    (h : s.player.invincibleTimer > 0) : damagePlayer a f d s = s := by
  unfold damagePlayer
  simp [h]

/-- A landing `damagePlayer` call opens the full 60-tick window. -/
theorem damagePlayer_lands_inv (a f : ℚ) (d : Vector2) (s : GameState)
    (h : ¬ s.player.invincibleTimer > 0) :
    (damagePlayer a f d s).player.invincibleTimer = 60 := by
  unfold damagePlayer
  simp [h]

/-- A landing `damagePlayer` call subtracts exactly the given amount. -/
theorem damagePlayer_lands_hp (a f : ℚ) (d : Vector2) (s : GameState)
    (h : ¬ s.player.invincibleTimer > 0) :
    (damagePlayer a f d s).player.stats.hp = s.player.stats.hp - a := by
  unfold damagePlayer
  simp [h]

/-- Any batch of damage calls inside the window is the identity. -/
theorem damageCalls_invincible (cs : List (ℚ × ℚ × Vector2)) (s : GameState)
    (h : s.player.invincibleTimer > 0) : damageCalls cs s = s := by
  induction cs with
  | nil => rfl
  | cons c rest ih =>
    unfold damageCalls at ih ⊢
    simp only [List.foldl_cons]
    rw [damagePlayer_invincible _ _ _ _ h]
    exact ih

/-- The timer decrement leaves the stats record untouched. -/
theorem tickPlayerTimers_stats (p : PlayerEntity) :
    (tickPlayerTimers p).stats = p.stats := by
  unfold tickPlayerTimers
  split <;> (dsimp only; split <;> rfl)

/-- The timer decrement takes one tick off a positive window. -/
theorem tickPlayerTimers_inv (p : PlayerEntity)
    (h : p.invincibleTimer > 0) :
    (tickPlayerTimers p).invincibleTimer = p.invincibleTimer - 1 := by
  unfold tickPlayerTimers
  rw [if_pos h]
  dsimp only
  split <;> rfl

/-- As long as more window ticks remain than rounds are played, harassment
rounds change neither the stats record nor more than one timer tick per
round. -/
theorem harassRounds_protected :
    ∀ (css : List (List (ℚ × ℚ × Vector2))) (s : GameState),
    (css.length : ℚ) < s.player.invincibleTimer →
    (harassRounds css s).player.stats = s.player.stats ∧
    (harassRounds css s).player.invincibleTimer
      = s.player.invincibleTimer - css.length := by
  intro css
  induction css with
  | nil =>
    intro s _
    refine ⟨rfl, ?_⟩
    simp [harassRounds]
  | cons cs rest ih =>
    intro s h
    have hlen : ((cs :: rest).length : ℚ) = (rest.length : ℚ) + 1 := by
      push_cast [List.length_cons]
      ring
    have hpos : s.player.invincibleTimer > 0 := by
      have h0 : (0 : ℚ) ≤ (rest.length : ℚ) := by positivity
      rw [hlen] at h
      linarith
    have hinvT : (tickTimersState s).player.invincibleTimer
        = s.player.invincibleTimer - 1 := tickPlayerTimers_inv _ hpos
    have hstT : (tickTimersState s).player.stats = s.player.stats :=
      tickPlayerTimers_stats _
    have hrec : ((rest.length : ℚ))
        < (tickTimersState s).player.invincibleTimer := by
      rw [hinvT]
      rw [hlen] at h
      linarith
    have hpos2 : (tickTimersState s).player.invincibleTimer > 0 := by
      have h0 : (0 : ℚ) ≤ (rest.length : ℚ) := by positivity
      rw [hinvT]
      rw [hlen] at h
      linarith
    have hstep : harassRounds (cs :: rest) s
        = harassRounds rest (tickTimersState s) := by
      unfold harassRounds
      simp only [List.foldl_cons]
      rw [damageCalls_invincible _ _ hpos2]
    rw [hstep]
    obtain ⟨h1, h2⟩ := ih (tickTimersState s) hrec
    refine ⟨h1.trans hstT, ?_⟩
    rw [h2, hinvT, hlen]
    ring

/-- C3: a `damagePlayer` call made while the invincibility counter is
positive changes nothing at all — hp, knockback velocity, invincibility
counter, flash counter and run status included, since the whole state is
unchanged.  A landing hit sets the counter to its full 60-tick window, and
from a landing hit onward any number of further `damagePlayer` calls spread
over up to 59 following ticks (each tick first decrementing the counter, as
`update` does) leave the player's stats record — hp included — unchanged. -/
theorem c3_invincibility_window :
    ∀ (s : GameState) (a f : ℚ) (d : Vector2),
      (s.player.invincibleTimer > 0 → damagePlayer a f d s = s) ∧
      (¬ s.player.invincibleTimer > 0 →
        (damagePlayer a f d s).player.invincibleTimer = 60) ∧
      (¬ s.player.invincibleTimer > 0 →
        ∀ css : List (List (ℚ × ℚ × Vector2)), css.length ≤ 59 →
          (harassRounds css (damagePlayer a f d s)).player.stats
            = (damagePlayer a f d s).player.stats) := by
  intro s a f d
  refine ⟨fun h => damagePlayer_invincible a f d s h,
          fun h => damagePlayer_lands_inv a f d s h,
          fun h css hlen => ?_⟩
  have hwin := damagePlayer_lands_inv a f d s h
  have hlt : (css.length : ℚ)
      < (damagePlayer a f d s).player.invincibleTimer := by
    rw [hwin]
    have : (css.length : ℚ) ≤ 59 := by exact_mod_cast hlen
    linarith
  exact (harassRounds_protected css _ hlt).1

/-- C3 witness: with the window open (counter 5) a call is the identity;
from a fresh hit the counter reads 60 and 59 harassed ticks leave the stats
unchanged. -/
theorem c3_witness :
    (damagePlayer 2 10 (⟨1, 0⟩ : Vector2)
        { st0 with player :=
          { (createPlayer "alpha") with invincibleTimer := 5 } }
      = { st0 with player :=
          { (createPlayer "alpha") with invincibleTimer := 5 } }) ∧
    (damagePlayer 2 10 (⟨1, 0⟩ : Vector2) st0).player.invincibleTimer
      = 60 ∧
    (harassRounds (List.replicate 59 [((2 : ℚ), (10 : ℚ), (⟨1, 0⟩ : Vector2))])
        (damagePlayer 2 10 (⟨1, 0⟩ : Vector2) st0)).player.stats
      = (damagePlayer 2 10 (⟨1, 0⟩ : Vector2) st0).player.stats := by
  refine ⟨(c3_invincibility_window _ 2 10 ⟨1, 0⟩).1 (by norm_num),
          (c3_invincibility_window st0 2 10 ⟨1, 0⟩).2.1
            (by norm_num [st0, createPlayer, CHARACTERS]),
          (c3_invincibility_window st0 2 10 ⟨1, 0⟩).2.2
            (by norm_num [st0, createPlayer, CHARACTERS]) _ (by simp)⟩

/-- C4: a landing `damagePlayer` call that leaves hp at or below zero sets
the status to GAME_OVER within that same call; every `damagePlayer` call
preserves the invariant that hp is strictly positive while the status is
PLAYING (so hp is never at or below the death threshold with the status
still PLAYING); and the killing call opens the invincibility window, so
every further `damagePlayer` call in that tick is a complete no-op — the
transition happens exactly once. -/
theorem c4_death_transition :
    ∀ (s : GameState) (a f : ℚ) (d : Vector2),
      (¬ s.player.invincibleTimer > 0 →
        (damagePlayer a f d s).player.stats.hp ≤ 0 →
        (damagePlayer a f d s).status = GameStatus.GAME_OVER) ∧
      ((s.status = GameStatus.PLAYING → 0 < s.player.stats.hp) →
        ((damagePlayer a f d s).status = GameStatus.PLAYING →
          0 < (damagePlayer a f d s).player.stats.hp)) ∧
      (¬ s.player.invincibleTimer > 0 →
        ∀ (a2 f2 : ℚ) (d2 : Vector2),
          damagePlayer a2 f2 d2 (damagePlayer a f d s)
            = damagePlayer a f d s) := by
  intro s a f d
  refine ⟨?_, ?_, ?_⟩
  · intro h hhp
    rw [damagePlayer_lands_hp a f d s h] at hhp
    unfold damagePlayer
    simp [h, hhp]
  · intro hinv hplay
    by_cases h : s.player.invincibleTimer > 0
    · rw [damagePlayer_invincible a f d s h] at hplay ⊢
      exact hinv hplay
    · rw [damagePlayer_lands_hp a f d s h]
      by_contra hle
      push_neg at hle
      have : (damagePlayer a f d s).status = GameStatus.GAME_OVER := by
        unfold damagePlayer
        simp [h, hle]
      rw [this] at hplay
      exact absurd hplay (by decide)
  · intro h a2 f2 d2
    exact damagePlayer_invincible a2 f2 d2 _
      (by rw [damagePlayer_lands_inv a f d s h]; norm_num)

/-- C4 witness: a hit at hp 1 lands, drives hp to 0 and flips the status to
GAME_OVER in the same call, and a second call that tick is a no-op. -/
theorem c4_witness :
    ((damagePlayer 1 0 (⟨0, 0⟩ : Vector2)
        { st0 with player := { (createPlayer "alpha") with stats :=
          { (createPlayer "alpha").stats with hp := 1 } } }).status
      = GameStatus.GAME_OVER) ∧
    (damagePlayer 3 7 (⟨0, 1⟩ : Vector2) (damagePlayer 1 0 (⟨0, 0⟩ : Vector2)
        { st0 with player := { (createPlayer "alpha") with stats :=
          { (createPlayer "alpha").stats with hp := 1 } } })
      = damagePlayer 1 0 (⟨0, 0⟩ : Vector2)
        { st0 with player := { (createPlayer "alpha") with stats :=
          { (createPlayer "alpha").stats with hp := 1 } } }) := by
  refine ⟨(c4_death_transition _ 1 0 ⟨0, 0⟩).1
            (by norm_num [createPlayer, CHARACTERS])
            (by norm_num [damagePlayer, st0, createPlayer, CHARACTERS]),
          (c4_death_transition _ 1 0 ⟨0, 0⟩).2.2
            (by norm_num [createPlayer, CHARACTERS]) 3 7 ⟨0, 1⟩⟩

/-- The `updateCurrentRoom` touches only the dungeon. -/
theorem updateCurrentRoom_entities (s : GameState) (f : Room → Room) :
    (updateCurrentRoom s f).entities = s.entities := by
  unfold updateCurrentRoom
  split
  · rfl
  · split <;> rfl

/-- The `updateCurrentRoom` leaves the player untouched. -/
theorem updateCurrentRoom_player (s : GameState) (f : Room → Room) :
    (updateCurrentRoom s f).player = s.player := by
  unfold updateCurrentRoom
  split
  · rfl
  · split <;> rfl

/-- C8 (amended): the door-collision check, the room-clear evaluation and
the door-traversal stage are guarded no-ops when no room is active, but
`resolveWallCollision` (for the player and for entities) and
`checkWallCollision` are not guarded: they dereference `this.currentRoom!`
unconditionally and fault on a null room — they are only reached from
states with an active room. -/
theorem c8_no_room_guards :
    ∀ (M : MathModel) (s : GameState) (b : Bool) (p : PlayerEntity)
      (e : Entity),
      (currentRoomOf s = none → checkDoorCollisions M s = s) ∧
      (currentRoomOf s = none → clearStage b s = s) ∧
      (currentRoomOf s = none → doorStage M s = s) ∧
      resolveWallP none p = none ∧
      resolveWallE none e = none ∧
      checkWallCollision none e = none := by
  intro M s b p e
  refine ⟨fun h => ?_, fun h => ?_, fun h => ?_, rfl, rfl, rfl⟩
  · unfold checkDoorCollisions
    rw [h]
  · unfold clearStage
    rw [h]
  · unfold doorStage
    rw [h]

/-- C8 witness: the guarded operations at a concrete room-less state. -/
theorem c8_witness :
    checkDoorCollisions M0 stNoRoom = stNoRoom ∧
    clearStage true stNoRoom = stNoRoom ∧
    doorStage M0 stNoRoom = stNoRoom := by
  refine ⟨(c8_no_room_guards M0 stNoRoom true stNoRoom.player heartG).1 rfl,
          (c8_no_room_guards M0 stNoRoom true stNoRoom.player heartG).2.1 rfl,
          (c8_no_room_guards M0 stNoRoom true stNoRoom.player heartG).2.2.1
            rfl⟩

/-- C8 counterexample: with no active room, the wall-collision operations
fault (the unguarded `this.currentRoom!` dereference) instead of being
no-op calls. -/
theorem c8_counterexample :
    currentRoomOf stNoRoom = none ∧
    resolveWallP (currentRoomOf stNoRoom) stNoRoom.player = none ∧
    checkWallCollision (currentRoomOf stNoRoom) (mkProjE 3 10) = none := by
  exact ⟨rfl, rfl, rfl⟩

/-- C6 (amended): after the stat application of `collectItem`, hp still
does not exceed maxHp provided it did not before the pickup, and whenever a
fire-rate modifier applies, the resulting fire rate is clamped to at least
5 ticks.  There is no maxHp >= 1 clamp (see the counterexample), and stats
untouched by the item's modifiers are not re-clamped. -/
theorem c6_stat_guards :
    ∀ (mods : ItemMods) (st : Stats),
      (st.hp ≤ st.maxHp →
        (applyItemStats mods st).hp ≤ (applyItemStats mods st).maxHp) ∧
      (mods.fireRate ≠ 0 → 5 ≤ (applyItemStats mods st).fireRate) := by
  intro mods st
  unfold applyItemStats
  dsimp only
  constructor
  · intro h
    simp only [apply_ite Stats.hp, apply_ite Stats.maxHp, ite_self]
    split_ifs with h1 h2 <;> first
      | exact min_le_right _ _
      | exact h
  · intro hf
    simp only [apply_ite Stats.fireRate, ite_self, if_pos hf]
    exact le_max_left _ _

/-- C6 witness: the guards at a concrete modifier and stat record. -/
theorem c6_witness :
    (statsA.hp ≤ statsA.maxHp ∧
      (applyItemStats modsNeg statsA).hp
        ≤ (applyItemStats modsNeg statsA).maxHp) ∧
    ((5 : ℚ) ≤ (applyItemStats ({ fireRate := 1/2 } : ItemMods) statsA).fireRate) := by
  refine ⟨⟨by norm_num [statsA], (c6_stat_guards modsNeg statsA).1
            (by norm_num [statsA])⟩,
          (c6_stat_guards ({ fireRate := 1/2 } : ItemMods) statsA).2
            (by norm_num)⟩

/-- C6 counterexample: a configuration subtracting 10 maxHp drives maxHp of
a 5-maxHp player to -5, far below the claimed minimum of 1 — the code has
no such clamp. -/
theorem c6_counterexample : (applyItemStats modsNeg statsA).maxHp < 1 := by
  norm_num [applyItemStats, modsNeg, statsA]

/-- C10: collecting a heart pickup is exactly the early-return path of
`collectItem`: the collected entity is marked for removal, hp rises by the
configured amount (1) capped at maxHp, the notification is set for 60
ticks, and the state changes in no other way — no inventory append, no
choice-group sibling marking, no room `itemCollected`/`cleared` flags, no
stat-modifier application. -/
theorem c10_heart_pickup :
    ∀ (s : GameState) (i : ℕ) (e : Entity) (nm ds : String)
      (g : Option String),
      s.entities.get? i = some e →
      e.data = EntityData.item ItemType.HEART_PICKUP nm ds g →
      collectItem s i =
        { s with
          entities :=
            (s.entities.set i ({ e with markedForDeletion := true })),
          player := { s.player with stats := { s.player.stats with
            hp := min (s.player.stats.hp + 1) s.player.stats.maxHp } },
          notification := some "PICKUP_HEART_DESC",
          notificationTimer := 60 } := by
  intro s i e nm ds g h1 h2
  obtain ⟨eid, ex, ey, ew, ehh, evel, ekb, ecol, emd, eft, evz, edata⟩ := e
  dsimp only at h2
  subst h2
  unfold collectItem
  rw [h1]
  norm_num [DROPS, List.find?]

/-- C10 witness: collecting the lone heart at full hp caps hp at maxHp,
marks only the heart, and touches neither inventory nor room flags. -/
theorem c10_witness :
    (collectItem stHeart 0).player.stats.hp = 6 ∧
    (collectItem stHeart 0).player.inventory = [] ∧
    (collectItem stHeart 0).entities
      = [{ heartSolo with markedForDeletion := true }] ∧
    (collectItem stHeart 0).dungeon = stHeart.dungeon ∧
    (collectItem stHeart 0).notification = some "PICKUP_HEART_DESC" := by
  rw [c10_heart_pickup stHeart 0 heartSolo "PICKUP_HEART"
    "PICKUP_HEART_DESC" none rfl rfl]
  refine ⟨?_, rfl, rfl, rfl, rfl⟩
  norm_num [stHeart, st0, createPlayer, CHARACTERS]

/-- C5 (amended): for every collected non-heart item carrying a non-null
choice-group id, `collectItem` marks for removal, within the same call, the
collected item itself and every other item entity sharing that group id
(heart pickups take the early-return path and skip the sibling marking; see
the counterexample). -/
theorem c5_choice_group :
    ∀ (s : GameState) (i : ℕ) (e : Entity) (ity : ItemType)
      (nm ds g : String),
      s.entities.get? i = some e →
      e.data = EntityData.item ity nm ds (some g) →
      ity ≠ ItemType.HEART_PICKUP →
      (((collectItem s i).entities.get? i).map Entity.markedForDeletion
          = some true) ∧
      (∀ (j : ℕ) (e2 : Entity) (ity2 : ItemType) (nm2 ds2 : String),
        s.entities.get? j = some e2 →
        e2.data = EntityData.item ity2 nm2 ds2 (some g) →
        e2.id ≠ e.id →
        ((collectItem s i).entities.get? j).map Entity.markedForDeletion
          = some true) := by
  intro s i e ity nm ds g h1 h2 h3
  obtain ⟨eid, ex, ey, ew, ehh, evel, ekb, ecol, emd, eft, evz, edata⟩ := e
  dsimp only at h2
  subst h2
  have hent : (collectItem s i).entities
      = (s.entities.set i
          ({ id := eid, x := ex, y := ey, w := ew, h := ehh,
             velocity := evel, knockbackVelocity := ekb, color := ecol,
             markedForDeletion := true, flashTimer := eft, visualZ := evz,
             data := EntityData.item ity nm ds (some g) } : Entity)).map
          (fun e2 =>
            match e2.data with
            | EntityData.item _ _ _ g2 =>
              if g2 = some g ∧ e2.id ≠ eid then
                { e2 with markedForDeletion := true } else e2
            | _ => e2) := by
    unfold collectItem
    rw [h1]
    dsimp only
    rw [if_neg h3]
    rcases hfind : ITEMS.find? (fun c => c.itype == ity) with _ | cfg <;>
      simp only [hfind] <;>
      rw [updateCurrentRoom_entities]
  have hlen : i < s.entities.length := by
    by_contra hcon
    push_neg at hcon
    rw [List.get?_eq_none.2 hcon] at h1
    exact Option.noConfusion h1
  constructor
  · rw [hent, List.get?_map, List.get?_set_eq_of_lt _ hlen]
    simp only [Option.map_some']
    rw [if_neg (by simp)]
  · intro j e2 ity2 nm2 ds2 hj hdata hid
    obtain ⟨fid, fx, fy, fw, fhh, fvel, fkb, fcol, fmd, fft, fvz, fdata⟩ := e2
    dsimp only at hdata hid
    subst hdata
    have hne : i ≠ j := by
      intro hij
      rw [hij, hj] at h1
      apply hid
      have hq := congrArg Entity.id (Option.some.inj h1)
      dsimp only at hq
      rw [hq]
    rw [hent, List.get?_map, List.get?_set_ne _ _ hne, hj]
    simp only [Option.map_some']
    rw [if_pos ⟨trivial, hid⟩]

/-- C5 counterexample: a heart pickup carrying a choice-group id takes the
early-return path, leaving its live group sibling unmarked in the same
call. -/
theorem c5_counterexample :
    (stGroup.entities.get? 0).map (fun e => e.data)
      = some (EntityData.item ItemType.HEART_PICKUP "PICKUP_HEART"
          "PICKUP_HEART_DESC" (some "g")) ∧
    (stGroup.entities.get? 1).map
        (fun e => (e.markedForDeletion, e.data))
      = some (false, EntityData.item (ItemType.other 1) "A" "B"
          (some "g")) ∧
    ((collectItem stGroup 0).entities.get? 1).map Entity.markedForDeletion
      = some false := by
  refine ⟨rfl, rfl, ?_⟩
  norm_num [collectItem, stGroup, st0, heartG, siblingG, DROPS, List.find?,
    createPlayer, CHARACTERS]

/-- C5 witness: collecting the non-heart member of the pair marks both it
and the grouped heart. -/
theorem c5_witness :
    ((collectItem stGroup 1).entities.get? 1).map Entity.markedForDeletion
      = some true ∧
    ((collectItem stGroup 1).entities.get? 0).map Entity.markedForDeletion
      = some true := by
  refine ⟨(c5_choice_group stGroup 1 siblingG (ItemType.other 1) "A" "B"
      "g" rfl rfl (by decide)).1,
    (c5_choice_group stGroup 1 siblingG (ItemType.other 1) "A" "B" "g"
      rfl rfl (by decide)).2 0 heartG ItemType.HEART_PICKUP "PICKUP_HEART"
      "PICKUP_HEART_DESC" rfl rfl (by decide)⟩

/-- C9: every hit on the player deals exactly amount 1, regardless of the
attacker's damage stat.  (a) For any enemy — any type, any damage stat —
whose post-behavior, post-wall entity overlaps the player, `updateEnemy`
ends in exactly the call `damagePlayer 1 15 dir` with `dir` pointing from
the enemy to the player; (b) for any enemy-owned projectile — any damage
field — that survives its budget and the wall check and overlaps the
player, `updateProjectile` ends in exactly `damagePlayer 1 10 dir` along
the projectile's heading; (c) a landing `damagePlayer a f d` call
subtracts exactly `a` hp, so both kinds of hit subtract exactly 1. -/
theorem c9_flat_damage :
    (∀ (M : MathModel) (s : GameState) (i : ℕ) (e e3 : Entity)
        (ety : EnemyType) (hp mhp : ℚ) (ai : AiState) (timer : ℤ)
        (orbit : ℚ) (flying : Bool) (est : EnemyStats),
      s.entities.get? i = some e →
      e.data = EntityData.enemy ety hp mhp ai timer orbit flying est →
      resolveWallE
          (currentRoomOf
            ({ (enemyBehavior M s e).2 with
              entities := ((enemyBehavior M s e).2.entities.set i
                (enemyBehavior M s e).1) }))
          (enemyBehavior M s e).1 = some e3 →
      checkAABB e3.box (enemyBehavior M s e).2.player.box = true →
      updateEnemy M s i = some (damagePlayer 1 15
        (normalizeVector M
          ⟨(enemyBehavior M s e).2.player.x - e3.x,
           (enemyBehavior M s e).2.player.y - e3.y⟩)
        ({ (enemyBehavior M s e).2 with
          entities := (((enemyBehavior M s e).2.entities.set i
            (enemyBehavior M s e).1).set i e3) }))) ∧
    (∀ (M : MathModel) (s : GameState) (i : ℕ) (e : Entity)
        (ownerId : String) (dmg kb lt : ℚ),
      s.entities.get? i = some e →
      e.data = EntityData.projectile ownerId dmg kb lt →
      (ownerId == "player") = false →
      ¬ (lt - (|e.velocity.x| + |e.velocity.y|) ≤ 0) →
      checkWallCollision (currentRoomOf s)
        ({ e with
           x := e.x + e.velocity.x, y := e.y + e.velocity.y,
           data := EntityData.projectile ownerId dmg kb
             (lt - (|e.velocity.x| + |e.velocity.y|)) }) = some false →
      checkAABB ({ e with
          x := e.x + e.velocity.x, y := e.y + e.velocity.y,
          data := EntityData.projectile ownerId dmg kb
            (lt - (|e.velocity.x| + |e.velocity.y|)) } : Entity).box
        s.player.box = true →
      updateProjectile M s i = some (damagePlayer 1 10
        (normalizeVector M
          ({ e with
             x := e.x + e.velocity.x, y := e.y + e.velocity.y,
             data := EntityData.projectile ownerId dmg kb
               (lt - (|e.velocity.x| + |e.velocity.y|)) } : Entity).velocity)
        ({ s with entities :=
          ((s.entities.set i ({ e with
              x := e.x + e.velocity.x, y := e.y + e.velocity.y,
              data := EntityData.projectile ownerId dmg kb
                (lt - (|e.velocity.x| + |e.velocity.y|)) })).set i
            ({ e with
               x := e.x + e.velocity.x, y := e.y + e.velocity.y,
               data := EntityData.projectile ownerId dmg kb
                 (lt - (|e.velocity.x| + |e.velocity.y|)),
               markedForDeletion := true })) }))) ∧
    (∀ (s : GameState) (a f : ℚ) (d : Vector2),
      ¬ s.player.invincibleTimer > 0 →
      (damagePlayer a f d s).player.stats.hp = s.player.stats.hp - a) := by
  refine ⟨?_, ?_, fun s a f d h => damagePlayer_lands_hp a f d s h⟩
  · intro M s i e e3 ety hp mhp ai timer orbit flying est h1 h2 hwall haabb
    obtain ⟨eid, ex, ey, ew, ehh, evel, ekb, ecol, emd, eft, evz, edata⟩ := e
    dsimp only at h2
    subst h2
    unfold updateEnemy
    rw [h1]
    dsimp only
    rw [hwall]
    dsimp only
    rw [haabb, if_pos rfl]
  · intro M s i e ownerId dmg kb lt h1 h2 hown hlt hwall haabb
    obtain ⟨eid, ex, ey, ew, ehh, evel, ekb, ecol, emd, eft, evz, edata⟩ := e
    dsimp only at h2
    subst h2
    unfold updateProjectile
    rw [h1]
    dsimp only
    rw [if_neg hlt, hwall]
    dsimp only
    rw [hown]
    rw [haabb, if_pos rfl, if_neg (by decide)]

/-- C9 witness: the overlapping shooter with damage stat 9 and the
enemy-owned projectile with damage field 9 each cost the player exactly
1 hp (6 to 5) and open the 60-tick window. -/
theorem c9_witness :
    ((updateEnemy M0 stContact 0).map
      (fun t => (t.player.stats.hp, t.player.invincibleTimer)))
      = some (5, 60) ∧
    ((updateProjectile M0 stProjHit 0).map
      (fun t => (t.player.stats.hp, t.player.invincibleTimer)))
      = some (5, 60) := by
  constructor
  · rw [(c9_flat_damage).1 M0 stContact 0 shooterE
      ({ shooterE with
         velocity := (⟨0, 0⟩ : Vector2),
         data := EntityData.enemy EnemyType.SHOOTER 5 5 AiState.IDLE 1 0
           true ⟨0, 9, 60, 4, 300⟩ })
      EnemyType.SHOOTER 5 5 AiState.IDLE 0 0 true ⟨0, 9, 60, 4, 300⟩
      rfl rfl
      (by norm_num [enemyBehavior, resolveWallE, resolveWallCore,
        rectBlocked, pointBlocked, feetRect, currentRoomOf, stContact, st0,
        shooterE, room0, baseLayout, tileAt, TILE_SIZE, distanceM, jsModQ,
        M0, Entity.isFlyingEnemy, Entity.mk.injEq, EntityData.enemy.injEq])
      (by norm_num [enemyBehavior, checkAABB, Entity.box,
        PlayerEntity.box, stContact, st0, shooterE, createPlayer,
        CHARACTERS, distanceM, jsModQ, M0, CANVAS_WIDTH, CANVAS_HEIGHT,
        PLAYER_SIZE])]
    norm_num [damagePlayer, normalizeVector, enemyBehavior, stContact, st0,
      shooterE, createPlayer, CHARACTERS, distanceM, jsModQ, M0,
      CANVAS_WIDTH, CANVAS_HEIGHT, PLAYER_SIZE]
  · rw [(c9_flat_damage).2.1 M0 stProjHit 0 projE9 "en1" 9 0 50
      rfl rfl (by decide) (by norm_num [projE9])
      (by norm_num [checkWallCollision, currentRoomOf, stProjHit, st0,
        projE9, room0, baseLayout, tileAt, TILE_SIZE, M0])
      (by norm_num [checkAABB, Entity.box, PlayerEntity.box, stProjHit,
        st0, projE9, createPlayer, CHARACTERS, CANVAS_WIDTH, CANVAS_HEIGHT,
        PLAYER_SIZE])]
    norm_num [damagePlayer, normalizeVector, stProjHit, st0, projE9,
      createPlayer, CHARACTERS, M0]

/-- The wall probe only reads the entity's bounding box. -/
theorem checkWallCollision_congr (room : Option Room) (a b : Entity)
    (hx : a.x = b.x) (hy : a.y = b.y) (hw : a.w = b.w) (hh : a.h = b.h) :
    checkWallCollision room a = checkWallCollision room b := by
  unfold checkWallCollision
  rw [hx, hy, hw, hh]

/-- Flight ticks can be peeled off at the back as well as at the front. -/
theorem projFlight_succ_right (M : MathModel) (k : ℕ) (s : GameState) :
    projFlight M (k + 1) s
      = (projFlight M k s).bind (fun t => updateProjectile M t 0) := by
  induction k generalizing s with
  | zero =>
    show (updateProjectile M s 0).bind (projFlight M 0)
      = updateProjectile M s 0
    cases updateProjectile M s 0 <;> rfl
  | succ k ih =>
    show (updateProjectile M s 0).bind (projFlight M (k + 1))
      = ((updateProjectile M s 0).bind (projFlight M k)).bind
          (fun t => updateProjectile M t 0)
    cases updateProjectile M s 0 with
    | none => rfl
    | some t => exact ih t

/-- The flight combinator keeps the velocity. -/
theorem projAt_velocity (e : Entity) (dmg kb B : ℚ) (k : ℕ) :
    (projAt e dmg kb B k).velocity = e.velocity := rfl

/-- The flight combinator keeps the removal flag. -/
theorem projAt_marked (e : Entity) (dmg kb B : ℚ) (k : ℕ) :
    (projAt e dmg kb B k).markedForDeletion = e.markedForDeletion := rfl

/-- Zero ticks of flight change nothing. -/
theorem projAt_zero (e : Entity) (dmg kb B : ℚ)
    (h : e.data = EntityData.projectile "player" dmg kb B) :
    projAt e dmg kb B 0 = e := by
  obtain ⟨eid, ex, ey, ew, ehh, evel, ekb, ecol, emd, eft, evz, edata⟩ := e
  dsimp only at h
  subst h
  unfold projAt
  simp only [Entity.mk.injEq, EntityData.projectile.injEq]
  norm_num

/-- Flight from the one-tick state is flight shifted by one tick. -/
theorem projAt_shift (e : Entity) (dmg kb B : ℚ) (k : ℕ) :
    projAt (projAt e dmg kb B 1) dmg kb
      (B - (|e.velocity.x| + |e.velocity.y|)) k
      = projAt e dmg kb B (k + 1) := by
  unfold projAt
  simp only [Entity.mk.injEq, EntityData.projectile.injEq, true_and,
    and_true, eq_self_iff_true]
  push_cast
  refine ⟨by ring, by ring, by ring⟩

/-- Unmarked free flight: while the budget stays positive and no wall is
hit, `k` ticks of `updateProjectile` advance the lone player-owned
projectile by `k` times its velocity and burn the budget by `k` times the
Manhattan magnitude of the per-tick displacement, never marking it. -/
theorem projFlight_free :
    ∀ (k : ℕ) (M : MathModel) (s : GameState) (e : Entity) (dmg kb B : ℚ),
      s.entities = [e] →
      e.data = EntityData.projectile "player" dmg kb B →
      e.markedForDeletion = false →
      0 < |e.velocity.x| + |e.velocity.y| →
      (k : ℚ) * (|e.velocity.x| + |e.velocity.y|) < B →
      (∀ j : ℕ, j ≤ k →
        checkWallCollision (currentRoomOf s) (projAt e dmg kb B j)
          = some false) →
      projFlight M k s
        = some { s with entities := [projAt e dmg kb B k] } := by
  intro k
  induction k with
  | zero =>
    intro M s e dmg kb B h1 h2 h3 hS hB hW
    show some s = _
    rw [projAt_zero e dmg kb B h2, ← h1]
  | succ k ih =>
    intro M s e dmg kb B h1 h2 h3 hS hB hW
    have hknn : (0 : ℚ) ≤ (k : ℚ) := Nat.cast_nonneg k
    have hcast : ((k + 1 : ℕ) : ℚ) = (k : ℚ) + 1 := by push_cast; ring
    rw [hcast] at hB
    have hlt2 : ¬ (B - (|e.velocity.x| + |e.velocity.y|) ≤ 0) := by
      push_neg
      nlinarith
    have he1 : ∀ eid ex ey ew ehh evel ekb ecol eft evz,
        e = ⟨eid, ex, ey, ew, ehh, evel, ekb, ecol, false, eft, evz,
          EntityData.projectile "player" dmg kb B⟩ →
        ({ id := eid, x := ex + evel.x, y := ey + evel.y, w := ew, h := ehh,
           velocity := evel, knockbackVelocity := ekb, color := ecol,
           markedForDeletion := false, flashTimer := eft, visualZ := evz,
           data := EntityData.projectile "player" dmg kb
             (B - (|evel.x| + |evel.y|)) } : Entity)
          = projAt e dmg kb B 1 := by
      intro eid ex ey ew ehh evel ekb ecol eft evz he
      subst he
      unfold projAt
      simp only [Entity.mk.injEq, EntityData.projectile.injEq]
      norm_num
    obtain ⟨eid, ex, ey, ew, ehh, evel, ekb, ecol, emd, eft, evz, edata⟩ := e
    dsimp only at h2 h3
    subst h2
    subst h3
    dsimp only at hS hB
    have he1' := he1 eid ex ey ew ehh evel ekb ecol eft evz rfl
    have hget : s.entities.get? 0 = some
        ⟨eid, ex, ey, ew, ehh, evel, ekb, ecol, false, eft, evz,
         EntityData.projectile "player" dmg kb B⟩ := by
      rw [h1]
      rfl
    show (updateProjectile M s 0).bind (projFlight M k) = _
    unfold updateProjectile
    rw [hget]
    dsimp only
    rw [if_neg hlt2]
    rw [he1']
    rw [hW 1 (by omega)]
    dsimp only
    rw [if_pos (show ("player" == "player") = true from rfl), h1]
    rw [List.set_cons_zero]
    rw [List.findIdx?_cons]
    rw [show ((projAt
        (⟨eid, ex, ey, ew, ehh, evel, ekb, ecol, false, eft, evz,
          EntityData.projectile "player" dmg kb B⟩ : Entity)
        dmg kb B 1).etype == EntityType.ENEMY) = false from rfl]
    rw [Bool.false_and, if_neg (by decide), List.findIdx?_nil]
    dsimp only
    have happ := ih M
      ({ s with entities :=
        [projAt
          (⟨eid, ex, ey, ew, ehh, evel, ekb, ecol, false, eft, evz,
            EntityData.projectile "player" dmg kb B⟩ : Entity)
          dmg kb B 1] })
      (projAt
        (⟨eid, ex, ey, ew, ehh, evel, ekb, ecol, false, eft, evz,
          EntityData.projectile "player" dmg kb B⟩ : Entity)
        dmg kb B 1)
      dmg kb (B - (|evel.x| + |evel.y|)) rfl
      (by unfold projAt; norm_num) rfl
      (by exact hS)
      (by show (k : ℚ) * (|evel.x| + |evel.y|) < B - (|evel.x| + |evel.y|)
          nlinarith)
      (by
        intro j hj
        have hwj := hW (j + 1) (by omega)
        rw [← projAt_shift] at hwj
        exact hwj)
    rw [Option.some_bind, happ]
    rw [projAt_shift]

/-- Flight from the `m`-tick state is flight shifted by `m` ticks. -/
theorem projAt_add (e : Entity) (dmg kb B : ℚ) (m k : ℕ) :
    projAt (projAt e dmg kb B m) dmg kb
      (B - (m : ℚ) * (|e.velocity.x| + |e.velocity.y|)) k
      = projAt e dmg kb B (m + k) := by
  unfold projAt
  simp only [Entity.mk.injEq, EntityData.projectile.injEq, true_and,
    and_true, eq_self_iff_true]
  push_cast
  refine ⟨by ring, by ring, by ring⟩

/-- The exhausting tick: when the budget is at most one tick's Manhattan
displacement, the next `updateProjectile` tick still advances the
projectile and then marks it for removal. -/
theorem projFlight_last (M : MathModel) (s : GameState) (e : Entity)
    (dmg kb B : ℚ) (h1 : s.entities = [e])
    (h2 : e.data = EntityData.projectile "player" dmg kb B)
    (hle : B ≤ |e.velocity.x| + |e.velocity.y|) :
    updateProjectile M s 0 = some { s with entities :=
      [{ projAt e dmg kb B 1 with markedForDeletion := true }] } := by
  obtain ⟨eid, ex, ey, ew, ehh, evel, ekb, ecol, emd, eft, evz, edata⟩ := e
  dsimp only at h2 hle
  subst h2
  have hget : s.entities.get? 0 = some
      ⟨eid, ex, ey, ew, ehh, evel, ekb, ecol, emd, eft, evz,
       EntityData.projectile "player" dmg kb B⟩ := by
    rw [h1]
    rfl
  unfold updateProjectile
  rw [hget]
  dsimp only
  rw [if_pos (by linarith), h1, List.set_cons_zero]
  unfold projAt
  simp only [Option.some.injEq, GameState.mk.injEq, List.cons.injEq,
    Entity.mk.injEq, EntityData.projectile.injEq, true_and,
    and_true, eq_self_iff_true]
  push_cast
  refine ⟨by ring, by ring, by ring⟩

/-- C1 (amended): each tick of `updateProjectile` advances the lone free
projectile by its velocity and decrements the travel budget `lifeTime` by
the Manhattan magnitude S = |vx|+|vy| of that tick's displacement, and —
absent wall hits — the projectile is marked for removal exactly at the
first tick the budget reaches <= 0.  For budget B > 0 and constant S > 0
that is tick n = ceil(B/S): the budget stays positive and the projectile
unmarked through every earlier tick, and the total Manhattan distance
n * S travelled at removal satisfies B ≤ n * S < B + S.  The total
distance therefore reaches at least B but is not independent of S: it
overshoots B by up to one tick's displacement (see the counterexample). -/
theorem c1_projectile_budget :
    ∀ (M : MathModel) (s : GameState) (e : Entity) (dmg kb B : ℚ),
      s.entities = [e] →
      e.data = EntityData.projectile "player" dmg kb B →
      e.markedForDeletion = false →
      0 < B →
      0 < |e.velocity.x| + |e.velocity.y| →
      (∀ j : ℕ, j ≤ (⌈B / (|e.velocity.x| + |e.velocity.y|)⌉).toNat →
        checkWallCollision (currentRoomOf s) (projAt e dmg kb B j)
          = some false) →
      (∀ k : ℕ, k < (⌈B / (|e.velocity.x| + |e.velocity.y|)⌉).toNat →
        projFlight M k s
          = some { s with entities := [projAt e dmg kb B k] } ∧
        0 < B - (k : ℚ) * (|e.velocity.x| + |e.velocity.y|)) ∧
      (projFlight M (⌈B / (|e.velocity.x| + |e.velocity.y|)⌉).toNat s
        = some { s with entities :=
            [{ projAt e dmg kb B
                ((⌈B / (|e.velocity.x| + |e.velocity.y|)⌉).toNat) with
              markedForDeletion := true }] }) ∧
      (B ≤ ((⌈B / (|e.velocity.x| + |e.velocity.y|)⌉).toNat : ℚ)
          * (|e.velocity.x| + |e.velocity.y|)) ∧
      (((⌈B / (|e.velocity.x| + |e.velocity.y|)⌉).toNat : ℚ)
          * (|e.velocity.x| + |e.velocity.y|)
        < B + (|e.velocity.x| + |e.velocity.y|)) := by
  intro M s e dmg kb B h1 h2 h3 hB hS hW
  have hSne : (|e.velocity.x| + |e.velocity.y|) ≠ 0 := ne_of_gt hS
  have hdivpos : 0 < B / (|e.velocity.x| + |e.velocity.y|) :=
    div_pos hB hS
  have hceilpos : 0 < ⌈B / (|e.velocity.x| + |e.velocity.y|)⌉ :=
    Int.ceil_pos.mpr hdivpos
  have hcoe : (((⌈B / (|e.velocity.x| + |e.velocity.y|)⌉).toNat : ℤ))
      = ⌈B / (|e.velocity.x| + |e.velocity.y|)⌉ :=
    Int.toNat_of_nonneg (le_of_lt hceilpos)
  have hcoeQ : (((⌈B / (|e.velocity.x| + |e.velocity.y|)⌉).toNat : ℕ) : ℚ)
      = ((⌈B / (|e.velocity.x| + |e.velocity.y|)⌉ : ℤ) : ℚ) := by
    exact_mod_cast congrArg (fun z : ℤ => (z : ℚ)) hcoe
  have hkS : ∀ k : ℕ,
      k < (⌈B / (|e.velocity.x| + |e.velocity.y|)⌉).toNat →
      (k : ℚ) * (|e.velocity.x| + |e.velocity.y|) < B := by
    intro k hk
    have hkZ : (k : ℤ) < ⌈B / (|e.velocity.x| + |e.velocity.y|)⌉ := by
      omega
    have : (k : ℚ) < B / (|e.velocity.x| + |e.velocity.y|) := by
      exact_mod_cast Int.lt_ceil.mp hkZ
    calc (k : ℚ) * (|e.velocity.x| + |e.velocity.y|)
        < (B / (|e.velocity.x| + |e.velocity.y|))
            * (|e.velocity.x| + |e.velocity.y|) := by
          exact mul_lt_mul_of_pos_right this hS
      _ = B := div_mul_cancel₀ B hSne
  have hBn : B ≤ (((⌈B / (|e.velocity.x| + |e.velocity.y|)⌉).toNat : ℕ) : ℚ)
      * (|e.velocity.x| + |e.velocity.y|) := by
    rw [hcoeQ]
    have hle := Int.le_ceil (B / (|e.velocity.x| + |e.velocity.y|))
    calc B = (B / (|e.velocity.x| + |e.velocity.y|))
        * (|e.velocity.x| + |e.velocity.y|) :=
          (div_mul_cancel₀ B hSne).symm
      _ ≤ ((⌈B / (|e.velocity.x| + |e.velocity.y|)⌉ : ℤ) : ℚ)
            * (|e.velocity.x| + |e.velocity.y|) :=
          mul_le_mul_of_nonneg_right hle (le_of_lt hS)
  have hnB : (((⌈B / (|e.velocity.x| + |e.velocity.y|)⌉).toNat : ℕ) : ℚ)
      * (|e.velocity.x| + |e.velocity.y|)
      < B + (|e.velocity.x| + |e.velocity.y|) := by
    rw [hcoeQ]
    have hlt := Int.ceil_lt_add_one (B / (|e.velocity.x| + |e.velocity.y|))
    have h2' : ((⌈B / (|e.velocity.x| + |e.velocity.y|)⌉ : ℤ) : ℚ)
        * (|e.velocity.x| + |e.velocity.y|)
        < (B / (|e.velocity.x| + |e.velocity.y|) + 1)
            * (|e.velocity.x| + |e.velocity.y|) :=
      mul_lt_mul_of_pos_right hlt hS
    calc ((⌈B / (|e.velocity.x| + |e.velocity.y|)⌉ : ℤ) : ℚ)
        * (|e.velocity.x| + |e.velocity.y|)
        < (B / (|e.velocity.x| + |e.velocity.y|) + 1)
            * (|e.velocity.x| + |e.velocity.y|) := h2'
      _ = B + (|e.velocity.x| + |e.velocity.y|) := by
          field_simp
  refine ⟨?_, ?_, hBn, hnB⟩
  · intro k hk
    refine ⟨projFlight_free k M s e dmg kb B h1 h2 h3 hS (hkS k hk)
      (fun j hj => hW j (le_trans hj (le_of_lt hk))), ?_⟩
    have := hkS k hk
    linarith
  · obtain ⟨m, hm⟩ : ∃ m,
        (⌈B / (|e.velocity.x| + |e.velocity.y|)⌉).toNat = m + 1 := by
      refine ⟨(⌈B / (|e.velocity.x| + |e.velocity.y|)⌉).toNat - 1, ?_⟩
      omega
    rw [hm, projFlight_succ_right]
    have hmlt : m < (⌈B / (|e.velocity.x| + |e.velocity.y|)⌉).toNat := by
      omega
    rw [projFlight_free m M s e dmg kb B h1 h2 h3 hS (hkS m hmlt)
      (fun j hj => hW j (le_trans hj (by omega)))]
    rw [Option.some_bind]
    have hlast := projFlight_last M
      ({ s with entities := [projAt e dmg kb B m] })
      (projAt e dmg kb B m) dmg kb
      (B - (m : ℚ) * (|e.velocity.x| + |e.velocity.y|)) rfl rfl
      (by
        rw [projAt_velocity]
        have h9 := hBn
        rw [hm] at h9
        push_cast at h9
        linarith [h9])
    rw [hlast]
    rw [projAt_add]

set_option maxHeartbeats 2000000 in
/-- C1 counterexample: with budget `lifeTime = 10` the projectile with
per-tick speed 3 is removed after 4 ticks having travelled 12 units,
while the projectile with per-tick speed 5 is removed after 2 ticks
having travelled 10 units, and 12 ≠ 10 — the travel distance before
removal depends on the projectile speed, not only on the budget. -/
theorem c1_counterexample :
    (((projFlight M0 4 (stProj 3 10)).bind (fun t => t.entities.get? 0)).map
        (fun e => (e.markedForDeletion, e.x - 96)) = some (true, 12)) ∧
    (((projFlight M0 3 (stProj 3 10)).bind (fun t => t.entities.get? 0)).map
        (fun e => e.markedForDeletion) = some false) ∧
    (((projFlight M0 2 (stProj 5 10)).bind (fun t => t.entities.get? 0)).map
        (fun e => (e.markedForDeletion, e.x - 96)) = some (true, 10)) ∧
    (12 : ℚ) ≠ 10 := by
  refine ⟨?_, ?_, ?_, by norm_num⟩
  · norm_num [show (4:ℕ) = 3+1 from rfl, show (3:ℕ) = 2+1 from rfl,
      show (2:ℕ) = 1+1 from rfl, show (1:ℕ) = 0+1 from rfl,
      projFlight, updateProjectile, stProj, st0, mkProjE, room0,
      checkWallCollision, currentRoomOf, baseLayout, tileAt, TILE_SIZE, M0,
      Entity.etype, checkAABB, Entity.box, PlayerEntity.box, createPlayer,
      CHARACTERS,
      show ((0:ℕ) == 1) = false from rfl, show ((0:ℕ) == 2) = false from rfl,
      show ¬ (EntityType.PROJECTILE = EntityType.ENEMY) from by decide]
  · norm_num [show (3:ℕ) = 2+1 from rfl,
      show (2:ℕ) = 1+1 from rfl, show (1:ℕ) = 0+1 from rfl,
      projFlight, updateProjectile, stProj, st0, mkProjE, room0,
      checkWallCollision, currentRoomOf, baseLayout, tileAt, TILE_SIZE, M0,
      Entity.etype, checkAABB, Entity.box, PlayerEntity.box, createPlayer,
      CHARACTERS,
      show ((0:ℕ) == 1) = false from rfl, show ((0:ℕ) == 2) = false from rfl,
      show ¬ (EntityType.PROJECTILE = EntityType.ENEMY) from by decide]
  · norm_num [show (2:ℕ) = 1+1 from rfl, show (1:ℕ) = 0+1 from rfl,
      projFlight, updateProjectile, stProj, st0, mkProjE, room0,
      checkWallCollision, currentRoomOf, baseLayout, tileAt, TILE_SIZE, M0,
      Entity.etype, checkAABB, Entity.box, PlayerEntity.box, createPlayer,
      CHARACTERS,
      show ((0:ℕ) == 1) = false from rfl, show ((0:ℕ) == 2) = false from rfl,
      show ¬ (EntityType.PROJECTILE = EntityType.ENEMY) from by decide]

/-- C1 witness: the budget-10, speed-3 projectile of `stProj 3 10` flies
free for 3 ticks and is marked for removal on tick 4 = ⌈10/3⌉, at
travelled Manhattan distance 12. -/
theorem c1_witness :
    projFlight M0 4 (stProj 3 10)
      = some { stProj 3 10 with entities :=
          [{ projAt (mkProjE 3 10) 3 5 10 4 with
              markedForDeletion := true }] } := by
  have hS3 : |(mkProjE 3 10).velocity.x| + |(mkProjE 3 10).velocity.y|
      = 3 := by
    norm_num [mkProjE]
  have hceil : (⌈(10:ℚ) / 3⌉ : ℤ) = 4 := by
    rw [Int.ceil_eq_iff]
    constructor <;> norm_num
  have h4 : (⌈(10:ℚ) / (|(mkProjE 3 10).velocity.x|
      + |(mkProjE 3 10).velocity.y|)⌉).toNat = 4 := by
    rw [hS3, hceil]
    rfl
  have h := (c1_projectile_budget M0 (stProj 3 10) (mkProjE 3 10) 3 5 10
    rfl rfl rfl (by norm_num) (by rw [hS3]; norm_num)
    (by
      intro j hj
      rw [h4] at hj
      interval_cases j <;>
        norm_num [checkWallCollision, currentRoomOf, stProj, st0, room0,
          baseLayout, tileAt, TILE_SIZE, projAt, mkProjE, Entity.box,
          checkAABB])).2.1
  rw [h4] at h
  exact h

/-- C7 (amended): while `PAUSED`, a tick whose inputs cannot change the
status — no fresh pause press (any pause input arrives with the latch
still held) and no restart about to fire (held at most 60 ticks after
increment) — returns early: the state is unchanged except for the pause
latch and restart-timer bookkeeping, and a UI snapshot is still emitted.
A FRESH pause press while `PAUSED` flips the status back to `PLAYING`
and the same `update` call then runs the full gameplay tick (see the
counterexample), and a held restart fires even while `PAUSED`. -/
theorem c7_pause_freeze (M : MathModel) (input : Input) (now : ℚ)
    (s : GameState) (hp : s.status = GameStatus.PAUSED)
    (hlk : input.pause = true → s.pauseLocked = true)
    (hrt : input.restart = true → s.restartTimer + 1 ≤ 60) :
    update M input now s = some
      ({ s with
          pauseLocked := if input.pause then s.pauseLocked else false,
          restartTimer := if input.restart then s.restartTimer + 1 else 0 },
       some (getUiState M { s with
          pauseLocked := if input.pause then s.pauseLocked else false,
          restartTimer := if input.restart then s.restartTimer + 1 else 0 })) := by
  by_cases hpz : input.pause = true
  · have hlk' := hlk hpz
    by_cases hrz : input.restart = true
    · have h60 := hrt hrz
      unfold update
      lift_lets
      extract_lets a1 a2 a3 a4 a5 a6 a7 a8 a9 a10
      have e2 : a2 = s := by
        unfold_let a2
        rw [hpz, hlk']
        rfl
      have e3 : a3 = { s with restartTimer := s.restartTimer + 1 } := by
        unfold_let a3
        simp only [e2]
      have e5 : a5 = { s with restartTimer := s.restartTimer + 1 } := by
        unfold_let a5
        rw [hrz, if_pos rfl]
        simp only [e3, e2]
        rw [if_neg (not_lt.mpr h60)]
      simp only [e5]
      rw [if_pos hp, hpz, hrz]
      rfl
    · simp only [Bool.not_eq_true] at hrz
      unfold update
      lift_lets
      extract_lets a1 a2 a3 a4 a5 a6 a7 a8 a9 a10
      have e2 : a2 = s := by
        unfold_let a2
        rw [hpz, hlk']
        rfl
      have e5 : a5 = { s with restartTimer := 0 } := by
        unfold_let a5
        rw [hrz, if_neg (by decide)]
        simp only [e2]
      simp only [e5]
      rw [if_pos hp, hpz, hrz]
      rfl
  · simp only [Bool.not_eq_true] at hpz
    by_cases hrz : input.restart = true
    · have h60 := hrt hrz
      unfold update
      lift_lets
      extract_lets a1 a2 a3 a4 a5 a6 a7 a8 a9 a10
      have e2 : a2 = { s with pauseLocked := false } := by
        unfold_let a2
        rw [hpz, if_neg (by decide)]
      have e3 : a3 = { s with pauseLocked := false, restartTimer := s.restartTimer + 1 } := by
        unfold_let a3
        simp only [e2]
      have e5 : a5 = { s with pauseLocked := false, restartTimer := s.restartTimer + 1 } := by
        unfold_let a5
        rw [hrz, if_pos rfl]
        simp only [e3, e2]
        rw [if_neg (not_lt.mpr h60)]
      simp only [e5]
      rw [if_pos hp, hpz, hrz]
      rfl
    · simp only [Bool.not_eq_true] at hrz
      unfold update
      lift_lets
      extract_lets a1 a2 a3 a4 a5 a6 a7 a8 a9 a10
      have e2 : a2 = { s with pauseLocked := false } := by
        unfold_let a2
        rw [hpz, if_neg (by decide)]
      have e5 : a5 = { s with pauseLocked := false, restartTimer := 0 } := by
        unfold_let a5
        rw [hrz, if_neg (by decide)]
        simp only [e2]
      simp only [e5]
      rw [if_pos hp, hpz, hrz]
      rfl

/-- C7 counterexample: a fresh pause press while `PAUSED` (latch released)
with a movement input does not freeze the tick — `update` flips the status
back to `PLAYING` and the very same call runs the full gameplay tick,
moving the player from x = 344 to x = 347. -/
theorem c7_counterexample :
    (update M0 pauseMoveInput 0 stPaused).map
        (fun t => (t.1.status, t.1.player.x)) =
      some (GameStatus.PLAYING, 347) := by
  norm_num [update, stPaused, st0, pauseMoveInput, M0, room0, baseLayout,
    createPlayer, CHARACTERS, clearStage, doorStage, checkDoorCollisions,
    entityLoop, entityLoopGo, processEntity, enemyIdxList,
    resolveEnemyPhysics, applyPhysicsP, decayKb, resolveWallP,
    resolveWallCore, currentRoomOf, updateCurrentRoom, takeRand,
    spawnPickup, carveDoors, tickPlayerTimers, tileAt, TILE_SIZE,
    CANVAS_WIDTH, CANVAS_HEIGHT, PLAYER_SIZE,
    rectBlocked, feetRect, pointBlocked, allPairs,
    show ¬ (GameStatus.PAUSED = GameStatus.PLAYING) from by decide,
    show ¬ (GameStatus.PLAYING = GameStatus.PAUSED) from by decide,
    show ¬ (RoomType.START = RoomType.ITEM) from by decide,
    show ¬ (RoomType.START = RoomType.BOSS) from by decide]

/-- Pushing an entity leaves the dungeon untouched. -/
theorem pushEntity_dungeon (s : GameState) (mk : String → Entity) :
    (pushEntity s mk).dungeon = s.dungeon := rfl

/-- Drawing from the random stream leaves the dungeon untouched. -/
theorem takeRand_dungeon (s : GameState) :
    (takeRand s).2.dungeon = s.dungeon := by
  unfold takeRand
  cases s.rand <;> rfl

/-- The `spawnPickup` leaves the dungeon untouched. -/
theorem spawnPickup_dungeon (x y : ℚ) (s : GameState) :
    (spawnPickup x y s).dungeon = s.dungeon := rfl

/-- The `spawnTrapdoor` leaves the dungeon untouched. -/
theorem spawnTrapdoor_dungeon (x y : ℚ) (s : GameState) :
    (spawnTrapdoor x y s).dungeon = s.dungeon := rfl

/-- The `spawnPedestal` leaves the dungeon untouched. -/
theorem spawnPedestal_dungeon (x y : ℚ) (s : GameState) :
    (spawnPedestal x y s).dungeon = s.dungeon := rfl

/-- The `spawnItem` leaves the dungeon untouched. -/
theorem spawnItem_dungeon (x y : ℚ) (sd : Option ℚ) (g : Option String)
    (s : GameState) : (spawnItem x y sd g s).dungeon = s.dungeon := by
  unfold spawnItem
  cases sd with
  | some v =>
    dsimp only
    split
    · exact spawnPedestal_dungeon x y s
    · rw [pushEntity_dungeon]
      exact spawnPedestal_dungeon x y s
  | none =>
    dsimp only
    rcases htr : takeRand (spawnPedestal x y s) with ⟨r, s2⟩
    have hd2 : s2.dungeon = s.dungeon := by
      have := takeRand_dungeon (spawnPedestal x y s)
      rw [htr] at this
      rw [this]
      exact spawnPedestal_dungeon x y s
    dsimp only
    split
    · exact hd2
    · rw [pushEntity_dungeon]
      exact hd2

/-- Mutating the aliased current room rewrites exactly its dungeon slot. -/
theorem updateCurrentRoom_get (s : GameState) (f : Room → Room) (i : ℕ)
    (rm : Room) (hidx : s.currentRoomIdx = some i)
    (hget : s.dungeon.get? i = some rm) :
    (updateCurrentRoom s f).dungeon.get? i = some (f rm) := by
  unfold updateCurrentRoom
  rw [hidx]
  dsimp only
  rw [hget]
  dsimp only
  have hlen : i < s.dungeon.length := by
    by_contra hcon
    push_neg at hcon
    rw [List.get?_eq_none.2 hcon] at hget
    exact Option.noConfusion hget
  rw [List.get?_set_eq, hget]
  rfl

/-- The current room resolves through the index and the dungeon slot. -/
theorem currentRoomOf_eq (s : GameState) (i : ℕ) (rm : Room)
    (hidx : s.currentRoomIdx = some i)
    (hget : s.dungeon.get? i = some rm) :
    currentRoomOf s = some rm := by
  unfold currentRoomOf
  rw [hidx]
  exact hget

/-- Persistence is reflexive. -/
theorem keepsCleared_refl (d : List Room) : keepsCleared d d :=
  fun _ r h hc => ⟨r, h, hc⟩

/-- Persistence composes. -/
theorem keepsCleared_trans {d1 d2 d3 : List Room}
    (h12 : keepsCleared d1 d2) (h23 : keepsCleared d2 d3) :
    keepsCleared d1 d3 := by
  intro i r h hc
  obtain ⟨r2, hg2, hc2⟩ := h12 i r h hc
  exact h23 i r2 hg2 hc2

/-- An unchanged dungeon keeps every cleared flag. -/
theorem keepsCleared_of_eq {d1 d2 : List Room} (h : d2 = d1) :
    keepsCleared d1 d2 := by
  subst h
  exact keepsCleared_refl d2

/-- Replacing one slot by a cleared-monotone update keeps every flag. -/
theorem keepsCleared_set (d : List Room) (j : ℕ) (r0 r1 : Room)
    (hg : d.get? j = some r0)
    (hmono : r0.cleared = true → r1.cleared = true) :
    keepsCleared d (d.set j r1) := by
  intro i r h hc
  by_cases hij : j = i
  · subst hij
    rw [h] at hg
    have hr : r = r0 := Option.some.inj hg
    subst hr
    have hlen : j < d.length := by
      by_contra hcon
      push_neg at hcon
      rw [List.get?_eq_none.2 hcon] at h
      exact Option.noConfusion h
    refine ⟨r1, ?_, hmono hc⟩
    rw [List.get?_set_eq, h]
    rfl
  · refine ⟨r, ?_, hc⟩
    rw [List.get?_set_ne _ _ hij]
    exact h

/-- The `updateCurrentRoom` with a cleared-monotone mutation keeps every flag. -/
theorem updateCurrentRoom_keeps (s : GameState) (f : Room → Room)
    (hf : ∀ r, r.cleared = true → (f r).cleared = true) :
    keepsCleared s.dungeon (updateCurrentRoom s f).dungeon := by
  unfold updateCurrentRoom
  cases hidx : s.currentRoomIdx with
  | none => exact keepsCleared_refl _
  | some j =>
    dsimp only
    cases hg : s.dungeon.get? j with
    | none => exact keepsCleared_refl _
    | some r => exact keepsCleared_set s.dungeon j r (f r) hg (hf r)

/-- Version of `updateCurrentRoom_keeps` with the source dungeon split out,
for use where the mutated state is a large record literal. -/
theorem updateCurrentRoom_keeps_from (d : List Room) (s : GameState)
    (f : Room → Room) (hd : s.dungeon = d)
    (hf : ∀ r, r.cleared = true → (f r).cleared = true) :
    keepsCleared d (updateCurrentRoom s f).dungeon := by
  rw [← hd]
  exact updateCurrentRoom_keeps s f hf

/-- The `spawnBoss` leaves the dungeon untouched. -/
theorem spawnBoss_dungeon (x y : ℚ) (s : GameState) :
    (spawnBoss x y s).dungeon = s.dungeon := rfl

/-- The enemy-spawn loop leaves the dungeon untouched. -/
theorem spawnEnemyLoop_dungeon (M : MathModel) (rm : Room) (fl : ℤ)
    (ve : List EnemyConfig) :
    ∀ (n : ℕ) (rng : SRNG) (s : GameState),
      (spawnEnemyLoop M rm fl ve n rng s).dungeon = s.dungeon := by
  intro n
  induction n with
  | zero => intro rng s; rfl
  | succ k ih =>
    intro rng s
    unfold spawnEnemyLoop
    dsimp only
    cases hc1 : (rng.weightedChoice (fun c => c.weight) ve).1 with
    | none => exact ih _ s
    | some config =>
      dsimp only
      cases hc2 : (tryPlaceEnemy M s.player rm.layout config.size 10
          (rng.weightedChoice (fun c => c.weight) ve).2).1 with
      | none => exact ih _ s
      | some pos =>
        dsimp only
        rw [ih _ _, pushEntity_dungeon]

/-- The `spawnEnemiesForRoom` leaves the dungeon untouched. -/
theorem spawnEnemiesForRoom_dungeon (M : MathModel) (rm : Room)
    (s : GameState) : (spawnEnemiesForRoom M rm s).dungeon = s.dungeon := by
  unfold spawnEnemiesForRoom
  rcases htr : takeRand s with ⟨rv, s1⟩
  have hd1 : s1.dungeon = s.dungeon := by
    have h0 := takeRand_dungeon s
    rw [htr] at h0
    exact h0
  dsimp only
  split
  · exact hd1
  · rw [spawnEnemyLoop_dungeon]
    exact hd1

/-- The tick clear check only ever sets `cleared`, so it keeps every flag. -/
theorem clearStage_keeps (b : Bool) (s : GameState) :
    keepsCleared s.dungeon (clearStage b s).dungeon := by
  unfold clearStage
  cases hcr : currentRoomOf s with
  | none => exact keepsCleared_refl _
  | some rm =>
    dsimp only
    split
    · have h1 : keepsCleared s.dungeon (updateCurrentRoom s (fun r =>
          { r with cleared := true,
                   layout := carveDoors r.layout r.doors })).dungeon :=
        updateCurrentRoom_keeps s _ (fun r _ => rfl)
      rcases htr : takeRand (updateCurrentRoom s (fun r =>
          { r with cleared := true, layout := carveDoors r.layout r.doors }))
        with ⟨rv, s2⟩
      have hd2 : s2.dungeon = (updateCurrentRoom s (fun r =>
          { r with cleared := true,
                   layout := carveDoors r.layout r.doors })).dungeon := by
        have h0 := takeRand_dungeon (updateCurrentRoom s (fun r =>
          { r with cleared := true, layout := carveDoors r.layout r.doors }))
        rw [htr] at h0
        exact h0
      dsimp only
      split
      · split
        · rw [spawnItem_dungeon, spawnItem_dungeon, spawnTrapdoor_dungeon,
            spawnPickup_dungeon, hd2]
          exact h1
        · rw [spawnItem_dungeon, spawnItem_dungeon, spawnTrapdoor_dungeon,
            hd2]
          exact h1
      · split
        · rw [spawnPickup_dungeon, hd2]
          exact h1
        · rw [hd2]
          exact h1
    · exact keepsCleared_refl _

/-- The `collectItem` only ever sets `cleared` (on the ITEM-room flag path), so
it keeps every flag. -/
theorem collectItem_keeps (s : GameState) (i : ℕ) :
    keepsCleared s.dungeon (collectItem s i).dungeon := by
  unfold collectItem
  cases hg : s.entities.get? i with
  | none => exact keepsCleared_refl _
  | some itemE =>
    dsimp only
    cases hd : itemE.data with
    | item ity nm ds grp =>
      dsimp only
      split
      · refine keepsCleared_of_eq ?_
        split
        · split <;> rfl
        · rfl
      · have hf : ∀ r : Room, r.cleared = true →
            ((fun r : Room =>
              let r1 := { r with itemCollected := true }
              if r1.rtype = RoomType.ITEM then
                { r1 with cleared := true,
                          layout := carveDoors r1.layout r1.doors }
              else r1) r).cleared = true := by
          intro r hc
          dsimp only
          split
          · rfl
          · exact hc
        cases grp with
        | none =>
          dsimp only
          split
          · dsimp only
            exact updateCurrentRoom_keeps_from s.dungeon _ _ rfl hf
          · dsimp only
            exact updateCurrentRoom_keeps_from s.dungeon _ _ rfl hf
        | some g =>
          dsimp only
          split
          · dsimp only
            exact updateCurrentRoom_keeps_from s.dungeon _ _ rfl hf
          · dsimp only
            exact updateCurrentRoom_keeps_from s.dungeon _ _ rfl hf
    | projectile o dmg kb lt => exact keepsCleared_refl _
    | enemy a b c d e f g h => exact keepsCleared_refl _
    | pedestal => exact keepsCleared_refl _
    | trapdoor => exact keepsCleared_refl _
    | obstacle => exact keepsCleared_refl _

/-- Room entry only ever sets `cleared` (collected-ITEM rule), so it keeps
every flag. -/
theorem enterRoom_keeps (M : MathModel) (j : ℕ) (d : Option Direction)
    (s : GameState) : keepsCleared s.dungeon (enterRoom M j d s).dungeon := by
  unfold enterRoom
  lift_lets
  extract_lets a1 a2 a3 a4
  intro cx cy offset doorW minX minY
  cases hg : a3.dungeon.get? j with
  | none => exact updateCurrentRoom_keeps s _ (fun r hc => hc)
  | some room0 =>
    dsimp -zeta only
    lift_lets
    extract_lets room1 room2 src0 maxX maxY p1 s4 sA s5 s6
    have hkeep1 : keepsCleared s.dungeon a3.dungeon :=
      updateCurrentRoom_keeps s _ (fun r hc => hc)
    have hm : room0.cleared = true → room2.cleared = true := by
      intro hc
      unfold_let room2 room1
      by_cases hP : room0.rtype = RoomType.ITEM ∧ room0.itemCollected = true
      · rw [if_pos hP]
        rw [if_pos (show ({ room0 with cleared := true } : Room).cleared
          = true from rfl)]
      · rw [if_neg hP, if_pos hc]
        exact hc
    have h5 : s5.dungeon = a4.dungeon.set j room2 := by
      unfold_let s5
      split
      · rfl
      · split
        · split
          · rw [spawnBoss_dungeon]
            unfold_let sA
            split
            · rw [spawnItem_dungeon]
            · rfl
          · unfold_let sA
            split
            · rw [spawnItem_dungeon]
            · rfl
        · rfl
    have h6 : s6.dungeon = a4.dungeon.set j room2 := by
      unfold_let s6
      split
      · split
        · rw [spawnBoss_dungeon]
          exact h5
        · split
          · rw [spawnEnemiesForRoom_dungeon]
            exact h5
          · exact h5
      · exact h5
    refine keepsCleared_trans ?_
      (updateCurrentRoom_keeps s6 _ (fun r hc => hc))
    rw [h6]
    exact keepsCleared_trans hkeep1
      (keepsCleared_set a3.dungeon j room0 room2 hg hm)

/-- Door traversal only mutates rooms through `enterRoom`, keeping flags. -/
theorem checkDoorCollisions_keeps (M : MathModel) (s : GameState) :
    keepsCleared s.dungeon (checkDoorCollisions M s).dungeon := by
  unfold checkDoorCollisions
  cases hcr : currentRoomOf s with
  | none => exact keepsCleared_refl _
  | some rm =>
    dsimp only
    split
    · exact keepsCleared_refl _
    · split
      · exact enterRoom_keeps M _ _ s
      · exact keepsCleared_refl _

/-- The door stage of `update` keeps every cleared flag. -/
theorem doorStage_keeps (M : MathModel) (s : GameState) :
    keepsCleared s.dungeon (doorStage M s).dungeon := by
  unfold doorStage
  cases hcr : currentRoomOf s with
  | none => exact keepsCleared_refl _
  | some rm =>
    dsimp only
    split
    · exact checkDoorCollisions_keeps M s
    · exact keepsCleared_refl _

/-- The room-flag step of `collectItem`: a non-heart pickup marks the
current room collected; when that room is an ITEM room it also sets
`cleared` and carves the doors in the same step, and otherwise it leaves
`cleared` untouched. -/
theorem collectItem_room_flags (s : GameState) (i jdx : ℕ) (itemE : Entity)
    (ity : ItemType) (nm ds : String) (grp : Option String) (rm : Room)
    (hg : s.entities.get? i = some itemE)
    (hd : itemE.data = EntityData.item ity nm ds grp)
    (hh : ity ≠ ItemType.HEART_PICKUP)
    (hidx : s.currentRoomIdx = some jdx)
    (hget : s.dungeon.get? jdx = some rm) :
    (collectItem s i).dungeon.get? jdx =
      some (if rm.rtype = RoomType.ITEM then
        { rm with itemCollected := true, cleared := true,
                  layout := carveDoors rm.layout rm.doors }
      else { rm with itemCollected := true }) := by
  obtain ⟨eid, ex, ey, ew, ehh, evel, ekb, ecol, emd, eft, evz, edata⟩ :=
    itemE
  dsimp only at hd
  subst hd
  unfold collectItem
  rw [hg]
  dsimp only
  rw [if_neg hh]
  cases grp with
  | none =>
    dsimp only
    split <;>
    · dsimp only
      refine Eq.trans (updateCurrentRoom_get _ _ jdx rm ?_ ?_) rfl
      · exact hidx
      · exact hget
  | some g =>
    dsimp only
    split <;>
    · dsimp only
      refine Eq.trans (updateCurrentRoom_get _ _ jdx rm ?_ ?_) rfl
      · exact hidx
      · exact hget

/-- The on-entry clear rule of `enterRoom` (the `room.itemCollected` check):
entering an ITEM room whose reward was already collected sets `cleared` on
entry and carves its doors — the only clear `enterRoom` performs. -/
theorem enterRoom_item_collected (M : MathModel) (j : ℕ)
    (dir : Option Direction) (s : GameState) (room : Room)
    (hidx : s.currentRoomIdx = some j)
    (hget : s.dungeon.get? j = some room)
    (hrt : room.rtype = RoomType.ITEM)
    (hic : room.itemCollected = true)
    (hse : room.savedEntities = [])
    (hv : room.visited = true)
    (hent : s.entities = []) :
    (enterRoom M j dir s).dungeon.get? j =
      some { room with cleared := true,
                       layout := carveDoors room.layout room.doors,
                       visited := true } := by
  unfold enterRoom
  lift_lets
  extract_lets a1 a2 a3 a4
  intro cx cy offset doorW minX minY
  have ha2 : a2 = [] := by
    unfold_let a2
    rw [hent]
    rfl
  have hroomEq : ({ room with savedEntities := ([] : List Entity) } : Room)
      = room := by
    conv_lhs => rw [← hse]
  have hs1 : a3.dungeon.get? j = some room := by
    have h0 := updateCurrentRoom_get s
      (fun r => { r with savedEntities := a2 }) j room hidx hget
    dsimp only at h0
    conv at h0 => rhs; rw [ha2, hroomEq]
    exact h0
  rw [hs1]
  dsimp -zeta only
  lift_lets
  extract_lets room1 room2 src0 maxX maxY p1 s4 sA s5 s6
  have hr1 : room1 = { room with cleared := true } := by
    unfold_let room1
    rw [if_pos ⟨hrt, hic⟩]
  have hr2 : room2 = { room with cleared := true, layout := carveDoors room.layout room.doors } := by
    unfold_let room2
    simp only [hr1, eq_self_iff_true, if_true]
  have h5 : s5 = s4 := by
    unfold_let s5
    simp only [hr2, hse, hv, List.length_nil, gt_iff_lt, lt_self_iff_false,
      not_true, if_false, ite_false]
  have h6 : s6 = s5 := by
    unfold_let s6
    simp only [hr2, not_true, false_and, if_false, ite_false]
  have hlen : j < a3.dungeon.length := by
    by_contra hcon
    push_neg at hcon
    rw [List.get?_eq_none.2 hcon] at hs1
    exact Option.noConfusion hs1
  refine Eq.trans (updateCurrentRoom_get _ _ j room2 ?_ ?_) ?_
  · simp only [h6, h5]
  · simp only [h6, h5]
    show (a4.dungeon.set j room2).get? j = some room2
    rw [List.get?_set_eq, hs1]
    rfl
  · refine congrArg some ?_
    simp only [hr2]

/-- C2 (amended): during a PLAYING tick the clear check fires exactly when
the current room is uncleared, holds zero live enemies, and is NOT an
ITEM room — ITEM rooms are never tick-cleared, an already-cleared room is
untouched, and nothing clears while enemies remain.  Every path that sets
`cleared` carves the doors into the layout in the same step: the tick
check, the ITEM-room flag step of `collectItem`, and the on-entry
collected-ITEM rule of `enterRoom` — the only clear `enterRoom` performs
(there is no on-entry zero-enemy check; see the counterexample).  Door
traversal (`doorStage`) is gated on the current room's `cleared` flag, and
once true the flag persists for that room instance: the clear check, the
door stages, `collectItem` and `enterRoom` all keep every set `cleared`
flag, and `loadFloor`/`startNewGame` replace the dungeon with fresh room
instances rather than mutating the old ones. -/
theorem c2_room_clearing :
    (∀ (M : MathModel) (s : GameState) (rm : Room),
      currentRoomOf s = some rm → rm.cleared = false → doorStage M s = s) ∧
    (∀ (b : Bool) (s : GameState) (rm : Room),
      currentRoomOf s = some rm → rm.rtype = RoomType.ITEM →
        clearStage b s = s) ∧
    (∀ (b : Bool) (s : GameState) (rm : Room),
      currentRoomOf s = some rm → rm.cleared = true → clearStage b s = s) ∧
    (∀ (s : GameState) (rm : Room),
      currentRoomOf s = some rm → clearStage false s = s) ∧
    (∀ (s : GameState) (i : ℕ) (rm : Room),
      s.currentRoomIdx = some i → s.dungeon.get? i = some rm →
      rm.cleared = false → rm.rtype ≠ RoomType.ITEM →
      (clearStage true s).dungeon.get? i
        = some { rm with cleared := true,
                         layout := carveDoors rm.layout rm.doors }) ∧
    (∀ (b : Bool) (s : GameState),
      keepsCleared s.dungeon (clearStage b s).dungeon) ∧
    (∀ (M : MathModel) (s : GameState),
      keepsCleared s.dungeon (doorStage M s).dungeon) ∧
    (∀ (M : MathModel) (s : GameState),
      keepsCleared s.dungeon (checkDoorCollisions M s).dungeon) ∧
    (∀ (s : GameState) (i : ℕ),
      keepsCleared s.dungeon (collectItem s i).dungeon) ∧
    (∀ (M : MathModel) (j : ℕ) (dir : Option Direction) (s : GameState),
      keepsCleared s.dungeon (enterRoom M j dir s).dungeon) ∧
    (∀ (s : GameState) (i jdx : ℕ) (itemE : Entity) (ity : ItemType)
      (nm ds : String) (grp : Option String) (rm : Room),
      s.entities.get? i = some itemE →
      itemE.data = EntityData.item ity nm ds grp →
      ity ≠ ItemType.HEART_PICKUP →
      s.currentRoomIdx = some jdx →
      s.dungeon.get? jdx = some rm →
      (collectItem s i).dungeon.get? jdx =
        some (if rm.rtype = RoomType.ITEM then
          { rm with itemCollected := true, cleared := true,
                    layout := carveDoors rm.layout rm.doors }
        else { rm with itemCollected := true })) ∧
    (∀ (M : MathModel) (j : ℕ) (dir : Option Direction) (s : GameState)
      (room : Room),
      s.currentRoomIdx = some j → s.dungeon.get? j = some room →
      room.rtype = RoomType.ITEM → room.itemCollected = true →
      room.savedEntities = [] → room.visited = true → s.entities = [] →
      (enterRoom M j dir s).dungeon.get? j =
        some { room with cleared := true,
                         layout := carveDoors room.layout room.doors,
                         visited := true }) := by
  refine ⟨?_, ?_, ?_, ?_, ?_, ?_, ?_, ?_, ?_, ?_, ?_, ?_⟩
  · intro M s rm h hnc
    unfold doorStage
    rw [h]
    dsimp only
    rw [hnc]
    rfl
  · intro b s rm h hit
    unfold clearStage
    rw [h]
    dsimp only
    rw [if_neg (by rintro ⟨-, -, hne⟩; exact hne hit)]
  · intro b s rm h hcl
    unfold clearStage
    rw [h]
    dsimp only
    rw [if_neg (by rintro ⟨hnc, -, -⟩; rw [hcl] at hnc; exact hnc rfl)]
  · intro s rm h
    unfold clearStage
    rw [h]
    dsimp only
    rw [if_neg (by rintro ⟨-, h2, -⟩; exact absurd h2 (by decide))]
  · intro s i rm hidx hget hnc hni
    unfold clearStage
    rw [currentRoomOf_eq s i rm hidx hget]
    dsimp only
    rw [if_pos ⟨by rw [hnc]; exact Bool.false_ne_true, rfl, hni⟩]
    have hg1 := updateCurrentRoom_get s
      (fun r => { r with cleared := true, layout := carveDoors r.layout r.doors })
      i rm hidx hget
    rcases htr : takeRand (updateCurrentRoom s (fun r =>
        { r with cleared := true, layout := carveDoors r.layout r.doors }))
      with ⟨rv, s2⟩
    have hd2 : s2.dungeon.get? i = some { rm with cleared := true, layout := carveDoors rm.layout rm.doors } := by
      have h0 := takeRand_dungeon (updateCurrentRoom s (fun r =>
        { r with cleared := true, layout := carveDoors r.layout r.doors }))
      rw [htr] at h0
      rw [h0]
      exact hg1
    dsimp only
    split
    · split
      · rw [spawnItem_dungeon, spawnItem_dungeon, spawnTrapdoor_dungeon,
          spawnPickup_dungeon]
        exact hd2
      · rw [spawnItem_dungeon, spawnItem_dungeon, spawnTrapdoor_dungeon]
        exact hd2
    · split
      · rw [spawnPickup_dungeon]
        exact hd2
      · exact hd2
  · intro b s
    exact clearStage_keeps b s
  · intro M s
    exact doorStage_keeps M s
  · intro M s
    exact checkDoorCollisions_keeps M s
  · intro s i
    exact collectItem_keeps s i
  · intro M j dir s
    exact enterRoom_keeps M j dir s
  · intro s i jdx itemE ity nm ds grp rm hg hd hh hidx hget
    exact collectItem_room_flags s i jdx itemE ity nm ds grp rm hg hd hh
      hidx hget
  · intro M j dir s room hidx hget hrt hic hse hv hent
    exact enterRoom_item_collected M j dir s room hidx hget hrt hic hse hv
      hent

/-- C7 witness: a PAUSED tick with neutral input (no pause press, no
restart held) freezes the game, releasing the pause latch and zeroing the
restart timer, and still emits a UI snapshot. -/
theorem c7_witness :
    update M0 nInput 0 stPaused = some
      ({ stPaused with pauseLocked := false, restartTimer := 0 },
       some (getUiState M0
         { stPaused with pauseLocked := false, restartTimer := 0 })) := by
  have h := c7_pause_freeze M0 nInput 0 stPaused rfl
    (fun hc => absurd hc (by decide)) (fun hc => absurd hc (by decide))
  simpa [nInput] using h

/-- C2 counterexample: entering the enemy-free, uncollected ITEM room
leaves it uncleared (no on-entry zero-enemy check exists), and a full
PLAYING tick inside it — zero live enemies throughout — still leaves
`cleared` false, because ITEM rooms are excluded from the per-tick clear
check. -/
theorem c2_counterexample :
    ((enterRoom M0 0 none stItemRoom).dungeon.get? 0).map
        (fun r => r.cleared) = some false ∧
    (enterRoom M0 0 none stItemRoom).entities = [] ∧
    (update M0 nInput 0 stItemRoom).map
        (fun t => ((t.1.dungeon.get? 0).map (fun r => r.cleared),
                   t.1.entities.length)) = some (some false, 0) := by
  refine ⟨?_, ?_, ?_⟩
  · norm_num [enterRoom, stItemRoom, roomItem, room0, st0, M0, baseLayout,
      createPlayer, CHARACTERS, updateCurrentRoom, Entity.etype,
      CANVAS_WIDTH, CANVAS_HEIGHT, TILE_SIZE, PLAYER_SIZE,
      show ¬ (RoomType.ITEM = RoomType.BOSS) from by decide,
      show ¬ (RoomType.ITEM = RoomType.NORMAL) from by decide,
      show ¬ (RoomType.ITEM = RoomType.START) from by decide]
  · norm_num [enterRoom, stItemRoom, roomItem, room0, st0, M0, baseLayout,
      createPlayer, CHARACTERS, updateCurrentRoom, Entity.etype,
      CANVAS_WIDTH, CANVAS_HEIGHT, TILE_SIZE, PLAYER_SIZE,
      show ¬ (RoomType.ITEM = RoomType.BOSS) from by decide,
      show ¬ (RoomType.ITEM = RoomType.NORMAL) from by decide,
      show ¬ (RoomType.ITEM = RoomType.START) from by decide]
  · norm_num [update, stItemRoom, roomItem, room0, st0, nInput, M0,
      baseLayout, createPlayer, CHARACTERS, clearStage, doorStage,
      checkDoorCollisions, entityLoop, entityLoopGo, processEntity,
      enemyIdxList, resolveEnemyPhysics, applyPhysicsP, decayKb,
      resolveWallP, resolveWallCore, currentRoomOf, updateCurrentRoom,
      takeRand, spawnPickup, carveDoors, tickPlayerTimers, tileAt,
      TILE_SIZE, CANVAS_WIDTH, CANVAS_HEIGHT, PLAYER_SIZE, rectBlocked,
      feetRect, pointBlocked, allPairs,
      show ¬ (GameStatus.PLAYING = GameStatus.PAUSED) from by decide]

/-- C2 witness: in the fixture rooms — door traversal is inert while the
NORMAL room is uncleared, no clear fires while enemies remain, the
zero-enemy tick check sets `cleared` and carves the doors, a cleared room
stays cleared through another tick check, collecting the reward item in
the ITEM room clears and carves it, and entering the collected ITEM room
clears and carves it on entry. -/
theorem c2_witness :
    doorStage M0 stNorm = stNorm ∧
    clearStage false stNorm = stNorm ∧
    ((clearStage true stNorm).dungeon.get? 0
      = some { roomNorm with cleared := true, layout := carveDoors roomNorm.layout roomNorm.doors }) ∧
    (∃ r', (clearStage true stCleared).dungeon.get? 0 = some r' ∧
      r'.cleared = true) ∧
    ((collectItem stPickItem 0).dungeon.get? 0
      = some { roomItem with itemCollected := true, cleared := true, layout := carveDoors roomItem.layout roomItem.doors }) ∧
    ((enterRoom M0 0 none stItemC).dungeon.get? 0
      = some { roomItemC with cleared := true, layout := carveDoors roomItemC.layout roomItemC.doors, visited := true }) :=
  ⟨c2_room_clearing.1 M0 stNorm roomNorm rfl rfl,
   c2_room_clearing.2.2.2.1 stNorm roomNorm rfl,
   c2_room_clearing.2.2.2.2.1 stNorm 0 roomNorm rfl rfl rfl (by decide),
   c2_room_clearing.2.2.2.2.2.1 true stCleared 0 roomCleared rfl rfl,
   (c2_room_clearing.2.2.2.2.2.2.2.2.2.2.1 stPickItem 0 0 siblingG
      (ItemType.other 1) "A" "B" (some "g") roomItem rfl rfl (by decide)
      rfl rfl).trans
     (by rw [if_pos (show roomItem.rtype = RoomType.ITEM from rfl)]),
   c2_room_clearing.2.2.2.2.2.2.2.2.2.2.2 M0 0 none stItemC roomItemC
      rfl rfl rfl rfl rfl rfl rfl⟩

end BG
